import Mathlib

/-!
# Widget data-binding pipeline of devdash / termetrics

A shallow embedding of `internal/platform/date.go`, `internal/ga_widget.go` and
`internal/remote_host_widget.go`, followed by the properties proved about them.

Conventions of the embedding

* A Go `string` is a sequence of bytes: `GoString := List Nat`, every element a byte value.
  String literals of the source are written `str "..."`, their UTF-8 encoding.
* A Go function returning `(v, err)` returns a pair `(v, Option Error)`; `none` is `nil`.
* A run-time panic (index or slice bound out of range) is the outer `none` of an `Option`.
* `int` and `int64` are 64 bits wide (`strconv.IntSize = 64`).
* `time.Time` is an instant in UTC: a day count since 0001-01-01 (the zero `Time`) and the
  nanoseconds elapsed since midnight. Go holds the seconds of this count in an `int64`;
  `time.Date`, `Time.Date` and `Time.AddDate` are written with the 64-bit wrap-around of
  their arithmetic, after the implementation of package `time` that counts from the absolute
  epoch, January 1 of the year -292277022399; a `uint64` result is taken modulo
  18446744073709551616, which is 2^64. Time zones are not modelled.
* The functions of the standard library that the source calls (`strings.Contains`,
  `strings.Split`, `strings.Trim`, `strings.TrimSpace`, `strconv.ParseInt`, `strconv.ParseBool`,
  `time.Parse`, `Time.AddDate`) are written out after their Go implementation; the data
  providers, the clock, `strings.Title`, `Time.Format` and the colour table are fields of `Env`.
* A widget handler returns a `Run`: how many provider fetches it performed and what it
  returned; the deferred render action is the data its closure captured.
-/

namespace Devdash

/-! ## Go strings -/

/-- A Go string: its bytes. -/
abbrev GoString := List Nat

/-- UTF-8 encoding of one code point. -/
def utf8 (c : Char) : List Nat :=
  let n := c.toNat
  if n < 0x80 then [n]
  else if n < 0x800 then [0xC0 + n / 64, 0x80 + n % 64]
  else if n < 0x10000 then [0xE0 + n / 4096, 0x80 + n / 64 % 64, 0x80 + n % 64]
  else [0xF0 + n / 262144, 0x80 + n / 4096 % 64, 0x80 + n / 64 % 64, 0x80 + n % 64]

/-- The Go string denoted by a source literal. -/
def str (s : String) : GoString := s.data.flatMap utf8

/-- Decimal digits of `n` as ASCII bytes, least significant first; `fuel` bounds their number. -/
def digitsLE : Nat → Nat → List Nat
  | 0, _ => []
  | fuel + 1, n => (48 + n % 10) :: (if n < 10 then [] else digitsLE fuel (n / 10))

/-- The decimal spelling of `n` without leading zeros. -/
def decimal (n : Nat) : GoString := (digitsLE (n + 1) n).reverse

/-- Go `strings.Contains(s, substr)`: `substr` occurs in `s` as a run of consecutive bytes. -/
def Contains : GoString → GoString → Bool
  | [], substr => substr.isEmpty
  | c :: s, substr => substr.isPrefixOf (c :: s) || Contains s substr

/-- Worker of `Split`: `skip` counts the bytes of a matched separator still to be dropped and
`cur` holds, reversed, the bytes of the piece being read. -/
def splitAux (sep : GoString) : GoString → Nat → GoString → List GoString
  | [], _, cur => [cur.reverse]
  | _ :: s, skip + 1, cur => splitAux sep s skip cur
  | c :: s, 0, cur =>
    if sep.isPrefixOf (c :: s) then cur.reverse :: splitAux sep s (sep.length - 1) []
    else splitAux sep s 0 (c :: cur)

/-- Go `strings.Split(s, sep)` for a non-empty separator (the source only splits at `"_"` and
`","`): the pieces of `s` between the successive non-overlapping occurrences of `sep`. -/
def Split (s sep : GoString) : List GoString := splitAux sep s 0 []

/-- Go `strings.TrimLeft(s, cutset)` for a cutset of ASCII bytes. -/
def TrimLeft (s cutset : GoString) : GoString := s.dropWhile (fun c => cutset.contains c)

/-- Go `strings.TrimRight(s, cutset)` for a cutset of ASCII bytes. -/
def TrimRight (s cutset : GoString) : GoString := (TrimLeft s.reverse cutset).reverse

/-- Go `strings.Trim(s, cutset)` for a cutset of ASCII bytes (the source trims with `" "`):
every leading and trailing byte that belongs to the cutset is removed. -/
def Trim (s cutset : GoString) : GoString := TrimRight (TrimLeft s cutset) cutset

/-! ## strconv.ParseInt -/

/-- The two causes carried by a `strconv.NumError`: `ErrSyntax` and `ErrRange`. -/
inductive NumErr where
  | invalid
  | outOfRange
deriving DecidableEq, Repr

/-- Error values produced by the standard library. -/
inductive LibError where
  /-- `*strconv.NumError` of `ParseInt` or `ParseBool` for the text `num`. -/
  | num (num : GoString) (cause : NumErr)
  /-- `*time.ParseError` for the text `value`. -/
  | timeParse (value : GoString)
deriving DecidableEq, Repr

/-- Go `error` values of the pipeline. -/
inductive Error where
  /-- an error of the standard library -/
  | lib (e : LibError)
  /-- `errors.New(msg)` and `errors.Errorf` -/
  | new (msg : GoString)
  /-- `errors.Wrapf(cause, ...)` with the formatted text `msg` -/
  | wrap (cause : Error) (msg : GoString)
  /-- an error returned by a data provider -/
  | provider (code : Nat)
deriving DecidableEq, Repr

/-- The text of `err.Error()`; `libMsg` renders the errors of the standard library and of the
providers. A wrapped error prints its own text, `": "`, then the text of its cause. -/
def Error.message (libMsg : Error → GoString) : Error → GoString
  | .wrap cause msg => msg ++ str ": " ++ Error.message libMsg cause
  | .new msg => msg
  | e => libMsg e

/-- Width of `int`. -/
def intSize : Nat := 64

/-- Go `lower(c)` of strconv: `c | ('x' - 'X')`. -/
def lower (c : Nat) : Nat := c ||| 32

/-- Digit loop of `strconv.ParseUint`. The accumulator is `n`; `us` records that an underscore
was seen. A failure carries the value returned with it. -/
def parseUintLoop (base0 : Bool) (base cutoff maxVal : Nat) :
    GoString → Nat → Bool → Except (Nat × NumErr) (Nat × Bool)
  | [], n, us => .ok (n, us)
  | c :: s, n, us =>
    if c = 95 ∧ base0 = true then parseUintLoop base0 base cutoff maxVal s n true
    else
      let digit : Option Nat :=
        if 48 ≤ c ∧ c ≤ 57 then some (c - 48)
        else if 97 ≤ lower c ∧ lower c ≤ 122 then some (lower c - 97 + 10)
        else none
      match digit with
      | none => .error (0, .invalid)
      | some d =>
        if d ≥ base then .error (0, .invalid)
        else if n ≥ cutoff then .error (maxVal, .outOfRange)
        else
          let n0 := n * base % 2 ^ 64
          let n1 := (n0 + d) % 2 ^ 64
          if n1 < n0 ∨ n1 > maxVal then .error (maxVal, .outOfRange)
          else parseUintLoop base0 base cutoff maxVal s n1 us

/-- Scan of `strconv.underscoreOK` over the number proper; `saw` is the class of the last byte
seen: `0` for a digit, `1` for an underscore, `2` for the start, `3` for anything else. -/
def underscoreScan (hex : Bool) : GoString → Nat → Bool
  | [], saw => saw ≠ 1
  | c :: s, saw =>
    if (48 ≤ c ∧ c ≤ 57) ∨ (hex = true ∧ 97 ≤ lower c ∧ lower c ≤ 102) then underscoreScan hex s 0
    else if c = 95 then (if saw ≠ 0 then false else underscoreScan hex s 1)
    else if saw = 1 then false
    else underscoreScan hex s 3

/-- Go `strconv.underscoreOK(s)`: underscores only separate digits (or follow a base marker). -/
def underscoreOK (s : GoString) : Bool :=
  let s := match s with
    | c :: r => if c = 45 ∨ c = 43 then r else s
    | [] => s
  match s with
  | 48 :: x :: r =>
    if lower x = 98 ∨ lower x = 111 ∨ lower x = 120 then underscoreScan (lower x = 120) r 0
    else underscoreScan false s 2
  | _ => underscoreScan false s 2

/-- Go `strconv.ParseUint(s, 0, 0)`: the value and the error cause, if any. -/
def ParseUint (s : GoString) : Nat × Option NumErr :=
  match s with
  | [] => (0, some .invalid)
  | c :: r =>
    let (base, digits) : Nat × GoString :=
      if c = 48 then
        match r with
        | x :: y :: t =>
          if lower x = 98 then (2, y :: t)
          else if lower x = 111 then (8, y :: t)
          else if lower x = 120 then (16, y :: t)
          else (8, r)
        | _ => (8, r)
      else (10, s)
    let cutoff := (2 ^ 64 - 1) / base + 1
    let maxVal := 2 ^ intSize - 1
    match parseUintLoop true base cutoff maxVal digits 0 false with
    | .error (v, e) => (v, some e)
    | .ok (n, us) =>
      if us = true ∧ underscoreOK s = false then (0, some .invalid) else (n, none)

/-- Go `strconv.ParseInt(s, 0, 0)`. -/
def ParseInt (s : GoString) : Int × Option Error :=
  match s with
  | [] => (0, some (.lib (.num s .invalid)))
  | c :: r =>
    let neg : Bool := c = 45
    let body := if c = 43 ∨ c = 45 then r else s
    match ParseUint body with
    | (_, some .invalid) => (0, some (.lib (.num s .invalid)))
    | (un, _) =>
      let cutoff : Nat := 2 ^ (intSize - 1)
      if neg = false ∧ un ≥ cutoff then ((cutoff : Int) - 1, some (.lib (.num s .outOfRange)))
      else if neg = true ∧ un > cutoff then (-(cutoff : Int), some (.lib (.num s .outOfRange)))
      else if neg = true then (-(un : Int), none)
      else ((un : Int), none)

/-! ## package time -/

/-- Wrap-around of a 64-bit signed integer. -/
def wrapInt64 (x : Int) : Int := (x + 2 ^ 63) % 2 ^ 64 - 2 ^ 63

/-- Nanoseconds in a day. -/
def nsPerDay : Nat := 86400000000000

/-- A `time.Time` in UTC: the instant `day` days and `nsec` nanoseconds after 0001-01-01
00:00:00 UTC, the zero `Time`. -/
structure Time where
  day : Int
  nsec : Fin 86400000000000
deriving DecidableEq, Repr

/-- The zero value `time.Time{}`: January 1, year 1, 00:00:00 UTC. -/
def Time.zero : Time := ⟨0, 0⟩

/-- Go `t.sec()`: the seconds since January 1, year 1 that the `Time` holds. Go keeps them
in an `int64`. -/
def Time.sec (t : Time) : Int := t.day * 86400 + (t.nsec.val / 1000000000 : Nat)

/-- Go constant `absoluteZeroYear`: the year of the absolute epoch of package time. -/
def absoluteZeroYear : Int := -292277022399

/-- Go constant `internalToAbsolute`: the seconds from the absolute epoch, January 1 of the
year -292277022399, to January 1 of the year 1. -/
def internalToAbsolute : Int := 9223371966579724800

/-- Go `t.abs()`: the seconds since the absolute epoch, as a `uint64`. -/
def Time.abs (t : Time) : Nat := ((t.sec + internalToAbsolute) % 18446744073709551616).toNat

/-- The `Time` that holds `sec` seconds since January 1, year 1 and the nanoseconds `nsec`
within the second, as Go `unixTime` builds it. -/
def Time.ofSec (sec : Int) (nsec : Nat) : Time :=
  ⟨sec / 86400,
    ⟨((sec % 86400).toNat * 1000000000 + nsec % 1000000000) % 86400000000000,
      Nat.mod_lt _ (by decide)⟩⟩

/-- Go `isLeap(year)`. -/
def isLeap (year : Int) : Bool :=
  year % 4 = 0 && (year % 100 ≠ 0 || year % 400 = 0)

/-- Go table `daysBefore[m]`: days of a non-leap year before the month of index `m` (0 is
January). -/
def daysBefore (m : Int) : Int :=
  if m ≤ 0 then 0 else if m = 1 then 31 else if m = 2 then 59 else if m = 3 then 90
  else if m = 4 then 120 else if m = 5 then 151 else if m = 6 then 181 else if m = 7 then 212
  else if m = 8 then 243 else if m = 9 then 273 else if m = 10 then 304 else if m = 11 then 334
  else 365

/-- Go `daysIn(m, year)` for a month `m` in 1..12. -/
def daysIn (m year : Int) : Int :=
  if m = 2 ∧ isLeap year = true then 29 else daysBefore m - daysBefore (m - 1)

/-- Go `daysSinceEpoch(year)`: the days from the absolute epoch to January 1 of `year`, by
400-, 100- and 4-year cycles, in `uint64` arithmetic. -/
def daysSinceEpoch (year : Int) : Nat :=
  let y := ((year - absoluteZeroYear) % 18446744073709551616).toNat
  let n := y / 400
  let y := y - 400 * n
  let d := 146097 * n
  let n := y / 100
  let y := y - 100 * n
  let d := d + 36524 * n
  let n := y / 4
  let y := y - 4 * n
  let d := d + 1461 * n
  (d + 365 * y) % 18446744073709551616

/-- The day count of `time.Date` before it is cut to a `uint64`: the month is normalised into
1..12 first (Go `norm`), the day may lie outside its month. -/
def dateDays (year month day : Int) : Int :=
  let m := month - 1
  let year := wrapInt64 (year + m / 12)
  let m := m % 12
  let d : Int := daysSinceEpoch year + daysBefore m
  let d := if isLeap year = true ∧ m + 1 ≥ 3 then d + 1 else d
  d + (day - 1)

/-- Go `time.Date(year, month, day, ..., time.UTC)`; `clock` is the time of day in nanoseconds
and overflows into the following days. The seconds since the absolute epoch are computed in
`uint64` arithmetic and converted to the `int64` seconds since January 1, year 1, both with
wrap-around. -/
def Date (year month day : Int) (clock : Nat) : Time :=
  let abs := (dateDays year month day * 86400 + (clock / 1000000000 : Nat)) % 18446744073709551616
  Time.ofSec (wrapInt64 (abs - internalToAbsolute)) clock

/-- Go `absDate`: the year of a `uint64` count of seconds since the absolute epoch and the
zero-based day within that year. -/
def absDate (abs : Nat) : Int × Int :=
  let d := abs / 86400
  let n := d / 146097
  let y := 400 * n
  let d := d - 146097 * n
  let n := d / 36524
  let n := n - n / 4
  let y := y + 100 * n
  let d := d - 36524 * n
  let n := d / 1461
  let y := y + 4 * n
  let d := d - 1461 * n
  let n := d / 365
  let n := n - n / 4
  let y := y + n
  let d := d - 365 * n
  ((y : Int) + absoluteZeroYear, (d : Int))

/-- Month and day of month of the zero-based day `yday` of a year, as at the end of Go
`absDate`. -/
def monthDay (leap : Bool) (yday : Int) : Int × Int :=
  if leap = true ∧ yday = 31 + 29 - 1 then (2, 29)
  else
    let day := if leap = true ∧ yday > 31 + 29 - 1 then yday - 1 else yday
    let month := day / 31
    let e := daysBefore (month + 1)
    if day ≥ e then (month + 2, day - e + 1)
    else (month + 1, day - daysBefore month + 1)

/-- Go `t.Date()`: year, month and day of month. -/
def Time.Date (t : Time) : Int × Int × Int :=
  let (year, yday) := absDate t.abs
  (year, monthDay (isLeap year) yday)

/-- Go `t.Year()`. -/
def Time.Year (t : Time) : Int := t.Date.1

/-- Go `t.Month()`. -/
def Time.Month (t : Time) : Int := t.Date.2.1

/-- Go `t.Clock()` and `t.Nanosecond()` in one number: the nanoseconds since midnight. -/
def Time.Clock (t : Time) : Nat := t.abs % 86400 * 1000000000 + t.nsec.val % 1000000000

/-- Go `t.AddDate(years, months, days)`: the date fields are shifted, in `int` arithmetic,
and normalised by `time.Date`; the clock is kept. -/
def Time.AddDate (t : Time) (years months days : Int) : Time :=
  let (year, month, day) := t.Date
  Devdash.Date (wrapInt64 (year + years)) (wrapInt64 (month + months)) (wrapInt64 (day + days))
    t.Clock

/-- Go `getnum(s, true)` of package time: exactly two decimal digits. -/
def getnum2 (s : GoString) : Option (Int × GoString) :=
  match s with
  | a :: b :: r =>
    if (48 ≤ a ∧ a ≤ 57) ∧ (48 ≤ b ∧ b ≤ 57) then some (((a - 48) * 10 + (b - 48) : Nat), r)
    else none
  | _ => none

/-- End of `time.Parse("2006-01-02", value)`: after year and month, the text `rest` must be
`-` and a two-digit day that exists in the month, with nothing after it. -/
def parseDay (bad : Time × Option Error) (year month : Int) (rest : GoString) :
    Time × Option Error :=
  match rest with
  | 45 :: r =>
    match getnum2 r with
    | none => bad
    | some (day, r) =>
      if r ≠ [] then bad
      else if day < 1 ∨ day > daysIn month year then bad
      else (Date year month day 0, none)
  | _ => bad

/-- Middle of `time.Parse("2006-01-02", value)`: after the year, the text `rest` must start
with `-` and a two-digit month in 1..12. -/
def parseMonth (bad : Time × Option Error) (year : Int) (rest : GoString) :
    Time × Option Error :=
  match rest with
  | 45 :: r =>
    match getnum2 r with
    | none => bad
    | some (month, r) => if month ≤ 0 ∨ 12 < month then bad else parseDay bad year month r
  | _ => bad

/-- Go `time.Parse("2006-01-02", value)`: a four-digit year, `-`, a two-digit month in 1..12,
`-`, a two-digit day that exists in that month, and nothing after it. A failure returns the
zero `Time` and a `*time.ParseError`. -/
def ParseDate (value : GoString) : Time × Option Error :=
  let bad : Time × Option Error := (Time.zero, some (.lib (.timeParse value)))
  match value with
  | y1 :: y2 :: y3 :: y4 :: r =>
    if (48 ≤ y1 ∧ y1 ≤ 57) ∧ (48 ≤ y2 ∧ y2 ≤ 57) ∧ (48 ≤ y3 ∧ y3 ≤ 57) ∧ (48 ≤ y4 ∧ y4 ≤ 57) then
      parseMonth bad (((y1 - 48) * 1000 + (y2 - 48) * 100 + (y3 - 48) * 10 + (y4 - 48) : Nat) : Int) r
    else bad
  | _ => bad

/-! ## package totime

The package `github.com/Phantas0s/devdash/totime` is not part of the sources at hand; the date
resolver takes its six functions as a parameter. -/

/-- The functions of package `totime` that `date.go` calls. Each returns the first and the
last day of a period. -/
structure Totime where
  ThisWeek : Time → Time × Time
  PrevWeeks : Time → Int → Time × Time
  ThisMonth : Time → Time × Time
  PrevMonths : Time → Int → Time × Time
  ThisYear : Time → Time × Time
  PrevYears : Time → Int → Time × Time

/-- Modelled from the spec: the package `totime`, whose source is missing. The specification
gives the boundaries as calendar dates: Monday and Sunday of the week, first and last day of
the month, January 1 and December 31 of the year; they are taken at midnight UTC. -/
def totimeSpec : Totime where
  ThisWeek := fun base =>
    let monday := base.day - base.day % 7
    (⟨monday, 0⟩, ⟨monday + 6, 0⟩)
  PrevWeeks := fun base n =>
    let monday := base.day - base.day % 7 - 7 * n
    (⟨monday, 0⟩, ⟨monday + 6, 0⟩)
  ThisMonth := fun base => (Date base.Year base.Month 1 0, Date base.Year (base.Month + 1) 0 0)
  PrevMonths := fun base n =>
    (Date base.Year (base.Month - n) 1 0, Date base.Year (base.Month - n + 1) 0 0)
  ThisYear := fun base => (Date base.Year 1 1 0, Date base.Year 12 31 0)
  PrevYears := fun base n => (Date (base.Year - n) 1 1 0, Date (base.Year - n) 12 31 0)

/-! ## internal/platform/date.go -/

def today : GoString := str "today"
def yesterday : GoString := str "yesterday"
def daysAgo : GoString := str "days_ago"
def thisWeek : GoString := str "this_week"
def lastWeek : GoString := str "last_week"
def weeksAgo : GoString := str "weeks_ago"
def thisMonth : GoString := str "this_month"
def lastMonth : GoString := str "last_month"
def monthsAgo : GoString := str "months_ago"
def thisYear : GoString := str "this_year"
def lastYear : GoString := str "last_year"
def yearsAgo : GoString := str "years_ago"

/-- Go `ExtractCountPeriod(period)`: the count in front of a period like `5_weeks_ago`. -/
def ExtractCountPeriod (period : GoString) : Int × Option Error :=
  let t := Split period (str "_")
  let t0 := t.headD []
  match ParseInt t0 with
  | (_, some err) =>
    (0, some (.wrap err (t0 ++ str " is from " ++ period ++ str " not a valid number")))
  | (p, none) => (p, none)

/-- Go `resolveAlias(date)`. -/
def resolveAlias (date : GoString) : GoString :=
  if Contains date yesterday then str "1_days_ago"
  else if Contains date lastWeek then str "1_weeks_ago"
  else if Contains date lastMonth then str "1_months_ago"
  else if Contains date lastYear then str "1_years_ago"
  else date

/-- Go `convertStartDate(base, startDate)`. -/
def convertStartDate (tt : Totime) (base : Time) (startDate : GoString) : Time × Option Error :=
  if Contains startDate today then (base, none)
  else if Contains startDate daysAgo then
    match ExtractCountPeriod startDate with
    | (_, some err) => (Time.zero, some err)
    | (days, none) => (base.AddDate 0 0 (wrapInt64 (-days)), none)
  else if Contains startDate thisWeek then ((tt.ThisWeek base).1, none)
  else if Contains startDate weeksAgo then
    match ExtractCountPeriod startDate with
    | (_, some err) => (Time.zero, some err)
    | (weeks, none) => ((tt.PrevWeeks base weeks).1, none)
  else if Contains startDate thisMonth then ((tt.ThisMonth base).1, none)
  else if Contains startDate monthsAgo then
    match ExtractCountPeriod startDate with
    | (_, some err) => (Time.zero, some err)
    | (months, none) => ((tt.PrevMonths base months).1, none)
  else if Contains startDate thisYear then ((tt.ThisYear base).1, none)
  else if Contains startDate yearsAgo then
    match ExtractCountPeriod startDate with
    | (_, some err) => (Time.zero, some (.wrap err (startDate ++ str " is not a valid date")))
    | (years, none) => ((tt.PrevYears base years).1, none)
  else ParseDate startDate

/-- Go `convertEndDate(base, endDate)`. -/
def convertEndDate (tt : Totime) (base : Time) (endDate : GoString) : Time × Option Error :=
  if Contains endDate today then (base, none)
  else if Contains endDate daysAgo then
    match ExtractCountPeriod endDate with
    | (_, some err) => (Time.zero, some err)
    | (days, none) => (base.AddDate 0 0 (wrapInt64 (-days)), none)
  else if Contains endDate thisWeek then ((tt.ThisWeek base).2, none)
  else if Contains endDate weeksAgo then
    match ExtractCountPeriod endDate with
    | (_, some err) => (Time.zero, some err)
    | (weeks, none) => ((tt.PrevWeeks base weeks).2, none)
  else if Contains endDate thisMonth then ((tt.ThisMonth base).2, none)
  else if Contains endDate monthsAgo then
    match ExtractCountPeriod endDate with
    | (_, some err) => (Time.zero, some err)
    | (months, none) => ((tt.PrevMonths base months).2, none)
  else if Contains endDate thisYear then ((tt.ThisYear base).1, none)
  else if Contains endDate yearsAgo then
    match ExtractCountPeriod endDate with
    | (_, some err) => (Time.zero, some err)
    | (years, none) => ((tt.PrevYears base years).1, none)
  else ParseDate endDate

/-- Go `ConvertDates(base, startDate, endDate)`: start date, end date and error. -/
def ConvertDates (tt : Totime) (base : Time) (startDate endDate : GoString) :
    Time × Time × Option Error :=
  let startDate := resolveAlias startDate
  let endDate := resolveAlias endDate
  match convertStartDate tt base startDate with
  | (_, some err) => (Time.zero, Time.zero, some err)
  | (start, none) =>
    match convertEndDate tt base endDate with
    | (_, some err) => (Time.zero, Time.zero, some err)
    | (end_, none) => (start, end_, none)

/-! ## internal/ga_widget.go: table shaping -/

/-- Go slice expression `p[:n]` on a string: the first `n` bytes; it panics (`none`) when `n`
is negative or exceeds the length. -/
def sliceTo (p : GoString) (n : Int) : Option GoString :=
  if n < 0 ∨ n > (p.length : Int) then none else some (p.take n.toNat)

/-- The label cell of a table row, lines 384 to 387 of `formatTable`:
`p := strings.Trim(dim[k], " "); if len(p) > int(charLimit) { p = p[:charLimit] }`. -/
def shapeLabel (label : GoString) (charLimit : Int) : Option GoString :=
  let p := Trim label (str " ")
  if (p.length : Int) > charLimit then sliceTo p charLimit else some p

/-- The loop `for k, v := range val` of `formatTable`, entered at index `k` with the rows `val`
still to visit and the table built so far. -/
def formatTableLoop (rowLimit : Int) (dim : List GoString) (charLimit : Int) :
    Nat → List (List GoString) → List (List GoString) → Option (List (List GoString))
  | _, [], table => some table
  | k, v :: val, table =>
    if (k : Int) = rowLimit then some table
    else
      match dim[k]? with
      | none => none
      | some label =>
        match shapeLabel label charLimit with
        | none => none
        | some p => formatTableLoop rowLimit dim charLimit (k + 1) val (table ++ [p :: v])

/-- Go `formatTable(rowLimit, dim, val, charLimit, headers)`; `none` is a run-time panic. -/
def formatTable (rowLimit : Int) (dim : List GoString) (val : List (List GoString))
    (charLimit : Int) (headers : List GoString) : Option (List (List GoString)) :=
  formatTableLoop rowLimit dim charLimit 0 val [headers]

/-! ## Options, providers and deferred actions -/

/-- A Go `map[string]string`, read with `get` and `has` and written with `set`; the `nil` map
is the empty list. -/
abbrev Options := List (GoString × GoString)

/-- Go `_, ok := m[key]`. -/
def Options.has (m : Options) (key : GoString) : Bool := (m.lookup key).isSome

/-- Go `m[key]`: the value stored, the empty string when there is none. -/
def Options.get (m : Options) (key : GoString) : GoString := (m.lookup key).getD []

/-- Go `m[key] = value`. -/
def Options.set (m : Options) (key value : GoString) : Options := (key, value) :: m

/-- The widget declaration `Widget{Name, Options}`. -/
structure Widget where
  Name : GoString
  Options : Options

/-- Modelled from the spec: the option-name constants `optionTitle`, `optionStartDate`, ...,
which are declared outside the sources at hand; the specification lists the recognised keys
`title`, `start_date`, `end_date`, `metric`, `metrics`, `dimension`, `dimensions`, `filters`,
`order`, `row_limit`, `char_limit`, `time_period`, `global`, `unit`, `first_color` to
`fifth_color`. -/
def optionTitle : GoString := str "title"
/-- Modelled from the spec: the option key `start_date`, declared outside the sources at hand. -/
def optionStartDate : GoString := str "start_date"
/-- Modelled from the spec: the option key `end_date`, declared outside the sources at hand. -/
def optionEndDate : GoString := str "end_date"
/-- Modelled from the spec: the option key `metric`, declared outside the sources at hand. -/
def optionMetric : GoString := str "metric"
/-- Modelled from the spec: the option key `metrics`, declared outside the sources at hand. -/
def optionMetrics : GoString := str "metrics"
/-- Modelled from the spec: the option key `dimension`, declared outside the sources at hand. -/
def optionDimension : GoString := str "dimension"
/-- Modelled from the spec: the option key `dimensions`, declared outside the sources at hand. -/
def optionDimensions : GoString := str "dimensions"
/-- Modelled from the spec: the option key `filters`, declared outside the sources at hand. -/
def optionFilters : GoString := str "filters"
/-- Modelled from the spec: the option key `order`, declared outside the sources at hand. -/
def optionOrder : GoString := str "order"
/-- Modelled from the spec: the option key `row_limit`, declared outside the sources at hand. -/
def optionRowLimit : GoString := str "row_limit"
/-- Modelled from the spec: the option key `char_limit`, declared outside the sources at hand. -/
def optionCharLimit : GoString := str "char_limit"
/-- Modelled from the spec: the option key `time_period`, declared outside the sources at hand. -/
def optionTimePeriod : GoString := str "time_period"
/-- Modelled from the spec: the option key `global`, declared outside the sources at hand. -/
def optionGlobal : GoString := str "global"
/-- Modelled from the spec: the option key `unit`, declared outside the sources at hand. -/
def optionUnit : GoString := str "unit"
/-- Modelled from the spec: the option key `first_color`, declared outside the sources at hand. -/
def optionFirstColor : GoString := str "first_color"
/-- Modelled from the spec: the option key `second_color`, declared outside the sources at hand. -/
def optionSecondColor : GoString := str "second_color"
/-- Modelled from the spec: the option key `third_color`, declared outside the sources at hand. -/
def optionThirdColor : GoString := str "third_color"
/-- Modelled from the spec: the option key `fourth_color`, declared outside the sources at hand. -/
def optionFourthColor : GoString := str "fourth_color"
/-- Modelled from the spec: the option key `fifth_color`, declared outside the sources at hand. -/
def optionFifthColor : GoString := str "fifth_color"

/-- The request `platform.AnalyticValues` sent to the analytics provider. -/
structure AnalyticValues where
  ViewID : GoString := []
  StartDate : GoString := []
  EndDate : GoString := []
  TimePeriod : GoString := []
  Global : Bool := false
  Metrics : List GoString := []
  Dimensions : List GoString := []
  Filters : List GoString := []
  Orders : List GoString := []
  RowLimit : Int := 0
  XHeaders : Nat := 0

/-- Everything the widget handlers take from outside `ga_widget.go` and
`remote_host_widget.go`: the clock, the data providers, the colour table of the package and
the library functions that are left abstract. -/
structure Env where
  /-- `time.Now()` -/
  now : Time
  /-- package `totime` -/
  tt : Totime
  /-- `g.viewID` -/
  viewID : GoString
  /-- `t.Format("2006-01-02")` -/
  Format : Time → GoString
  /-- `strings.Title` -/
  Title : GoString → GoString
  /-- `fmt.Sprintf(format)` without operands -/
  Sprintf : GoString → GoString
  /-- the map `colorLookUp` and the function `colorStr` on colours -/
  colorLookUp : GoString → Nat
  colorStr : Nat → GoString
  blue : Nat
  green : Nat
  yellow : Nat
  red : Nat
  magenta : Nat
  XHeaderTime : Nat
  XHeaderOtherDim : Nat
  /-- `analytics.RealTimeUsers(viewID)` -/
  RealTimeUsers : GoString → GoString × Option Error
  /-- `analytics.SimpleMetric(values)` -/
  SimpleMetric : AnalyticValues → GoString × Option Error
  /-- `analytics.BarMetric(values)`: labels, values, error -/
  BarMetric : AnalyticValues → List GoString × List Int × Option Error
  /-- `analytics.Table(values, firstHeader)`: headers, labels, value rows, error -/
  Table : AnalyticValues → GoString →
    List GoString × List GoString × List (List GoString) × Option Error
  /-- `analytics.StackedBar(values)`: labels, the named series in the order in which the `range`
  loop over the result map visits them, error -/
  StackedBar : AnalyticValues → List GoString × List (GoString × List Int) × Option Error
  /-- `service.Uptime()` -/
  Uptime : Int × Option Error
  /-- `service.Memory(metrics, unit)` -/
  Memory : List GoString → GoString → List Int × Option Error

/-- What a deferred render action `func() error` hands to the rendering surface when it is
run: the `tui.Add...` call it makes, with the values its closure captured. -/
inductive Action where
  | textBox (data : GoString) (title : GoString) (options : Options)
  /-- `AddTextBox(formatSeconds(time.Duration(uptime)), title, options)` -/
  | uptimeBox (uptime : Int) (title : GoString) (options : Options)
  | barChart (data : List Int) (dimensions : List GoString) (title : GoString)
      (options : Options)
  | table (data : List (List GoString)) (title : GoString) (options : Options)
  | stackedBarChart (data : List (List Int)) (dimensions : List GoString) (title : GoString)
      (colors : List Nat) (options : Options)
deriving DecidableEq, Repr

/-- The title captured by a deferred render action. -/
def Action.title : Action → GoString
  | .textBox _ t _ => t
  | .uptimeBox _ t _ => t
  | .barChart _ _ t _ => t
  | .table _ t _ => t
  | .stackedBarChart _ _ t _ _ => t

deriving instance DecidableEq for Except

/-- What a call of a handler did: the number of provider fetches it performed and what it
returned, the deferred action or the error; `none` is a run-time panic. -/
structure Run where
  fetches : Nat
  result : Option (Except Error Action)
deriving DecidableEq, Repr

/-- UTF-8 encodings of the characters for which Go `unicode.IsSpace` holds. -/
def spaceSeqs : List GoString :=
  [[9], [10], [11], [12], [13], [32], [0xC2, 0x85], [0xC2, 0xA0], [0xE1, 0x9A, 0x80],
    [0xE2, 0x80, 0x80], [0xE2, 0x80, 0x81], [0xE2, 0x80, 0x82], [0xE2, 0x80, 0x83],
    [0xE2, 0x80, 0x84], [0xE2, 0x80, 0x85], [0xE2, 0x80, 0x86], [0xE2, 0x80, 0x87],
    [0xE2, 0x80, 0x88], [0xE2, 0x80, 0x89], [0xE2, 0x80, 0x8A], [0xE2, 0x80, 0xA8],
    [0xE2, 0x80, 0xA9], [0xE2, 0x80, 0xAF], [0xE2, 0x81, 0x9F], [0xE3, 0x80, 0x80]]

/-- Removes from the front of `s` every byte sequence of `seqs` found there; `fuel` bounds the
number of removals. -/
def stripLeading (seqs : List GoString) : Nat → GoString → GoString
  | 0, s => s
  | fuel + 1, s =>
    match seqs.find? (fun w => w.isPrefixOf s) with
    | some w => stripLeading seqs fuel (s.drop w.length)
    | none => s

/-- Go `strings.TrimSpace(s)`: leading and trailing white space characters removed. -/
def TrimSpace (s : GoString) : GoString :=
  let l := stripLeading spaceSeqs s.length s
  (stripLeading (spaceSeqs.map List.reverse) l.length l.reverse).reverse

/-- Go `strconv.ParseBool(s)`. -/
def ParseBool (s : GoString) : Bool × Option Error :=
  if s ∈ [str "1", str "t", str "T", str "TRUE", str "true", str "True"] then (true, none)
  else if s ∈ [str "0", str "f", str "F", str "FALSE", str "false", str "False"] then
    (false, none)
  else (false, some (.lib (.num s .invalid)))

/-! ## internal/ga_widget.go: option extractors -/

/-- Go `ExtractTimeRange(base, widgetOptions)`. -/
def ExtractTimeRange (tt : Totime) (base : Time) (widgetOptions : Options) :
    Time × Time × Option Error :=
  let startDate :=
    if widgetOptions.has optionStartDate then widgetOptions.get optionStartDate
    else str "7_days_ago"
  let endDate :=
    if widgetOptions.has optionEndDate then widgetOptions.get optionEndDate else str "today"
  match ConvertDates tt base startDate endDate with
  | (_, _, some err) => (Time.zero, Time.zero, some err)
  | (sd, ed, none) => (sd, ed, none)

/-- Go `ExtractDimensions(widgetOptions)`. -/
def ExtractDimensions (widgetOptions : Options) : List GoString :=
  if widgetOptions.has optionDimensions then
    if (widgetOptions.get optionDimensions).length > 0 then
      Split (TrimSpace (widgetOptions.get optionDimensions)) (str ",")
    else []
  else []

/-- Go `ExtractMetric(widgetOptions)`. -/
def ExtractMetric (widgetOptions : Options) : GoString :=
  if widgetOptions.has optionMetric then widgetOptions.get optionMetric else str "sessions"

/-! ## internal/ga_widget.go: the handlers -/

def gaBoxRealtime : GoString := str "ga.box_real_time"
def gaBoxTotal : GoString := str "ga.box_total"
def gaBar : GoString := str "ga.bar"
def gaBarSessions : GoString := str "ga.bar_sessions"
def gaBarBounces : GoString := str "ga.bar_bounces"
def gaBarUsers : GoString := str "ga.bar_users"
def gaBarReturning : GoString := str "ga.bar_returning"
def gaBarNewReturning : GoString := str "ga.bar_new_returning"
def gaBarPages : GoString := str "ga.bar_pages"
def gaBarCountries : GoString := str "ga.bar_countries"
def gaBarDevices : GoString := str "ga.bar_devices"
def gaTablePages : GoString := str "ga.table_pages"
def gaTableTrafficSources : GoString := str "ga.table_traffic_sources"
def gaTable : GoString := str "ga.table"

/-- The `global` flag as `totalMetric`, `barMetric` and `table` read it: `false` when the
option is absent, else `strconv.ParseBool` of its value, a failure being wrapped. -/
def globalOption (options : Options) : Bool × Option Error :=
  if options.has optionGlobal then
    match ParseBool (options.get optionGlobal) with
    | (_, some err) =>
      (false, some (.wrap err
        (str "could not parse string " ++ options.get optionGlobal ++ str " to bool")))
    | (global, none) => (global, none)
  else (false, none)

/-- A comma-separated list option as the handlers read it: the default when the option is
absent or empty, else `strings.Split(strings.TrimSpace(value), ",")`. -/
def listOption (options : Options) (key : GoString) (dflt : List GoString) : List GoString :=
  if options.has key then
    if (options.get key).length > 0 then Split (TrimSpace (options.get key)) (str ",")
    else dflt
  else dflt

/-- An integer limit as `table` reads it: the default when the option is absent, else
`strconv.ParseInt(value, 0, 0)`, a failure being wrapped. -/
def limitOption (options : Options) (key : GoString) (dflt : Int) : Int × Option Error :=
  if options.has key then
    match ParseInt (options.get key) with
    | (_, some err) => (0, some (.wrap err (options.get key ++ str " must be a number")))
    | (limit, none) => (limit, none)
  else (dflt, none)

/-- Go `(g *gaWidget) totalMetric(widget)`. -/
def gaWidget.totalMetric (env : Env) (widget : Widget) : Run :=
  match ExtractTimeRange env.tt env.now widget.Options with
  | (_, _, some err) => ⟨0, some (.error err)⟩
  | (startDate, endDate, none) =>
    let title := str "Total " ++ ExtractMetric widget.Options ++ str " from " ++
      env.Format startDate ++ str " to " ++ env.Format endDate
    let title := if widget.Options.has optionTitle then widget.Options.get optionTitle else title
    match globalOption widget.Options with
    | (_, some err) => ⟨0, some (.error err)⟩
    | (global, none) =>
      match env.SimpleMetric
          { ViewID := env.viewID, StartDate := env.Format startDate,
            EndDate := env.Format endDate, Global := global,
            Metrics := [ExtractMetric widget.Options] } with
      | (_, some err) => ⟨1, some (.error err)⟩
      | (users, none) => ⟨1, some (.ok (.textBox users title widget.Options))⟩

/-- Go `(g *gaWidget) realTimeUser(widget)`. -/
def gaWidget.realTimeUser (env : Env) (widget : Widget) : Run :=
  let title := str " Real time users "
  let title := if widget.Options.has optionTitle then widget.Options.get optionTitle else title
  match env.RealTimeUsers env.viewID with
  | (_, some err) => ⟨1, some (.error err)⟩
  | (users, none) => ⟨1, some (.ok (.textBox users title widget.Options))⟩

/-- Go `(g *gaWidget) barMetric(widget, xHeader)`, the shared bar routine. -/
def gaWidget.barMetric (env : Env) (widget : Widget) (xHeader : Nat) : Run :=
  match globalOption widget.Options with
  | (_, some err) => ⟨0, some (.error err)⟩
  | (global, none) =>
    match ExtractTimeRange env.tt env.now widget.Options with
    | (_, _, some err) => ⟨0, some (.error err)⟩
    | (startDate, endDate, none) =>
      let filters := listOption widget.Options optionFilters []
      let timePeriod :=
        if widget.Options.has optionTimePeriod then
          TrimSpace (widget.Options.get optionTimePeriod)
        else str "day"
      let title := str " " ++ env.Title (ExtractMetric widget.Options) ++ str " per " ++
        timePeriod ++ str " "
      let title :=
        if widget.Options.has optionTitle then widget.Options.get optionTitle else title
      match env.BarMetric
          { ViewID := env.viewID, StartDate := env.Format startDate,
            EndDate := env.Format endDate, TimePeriod := timePeriod, Global := global,
            Metrics := [ExtractMetric widget.Options],
            Dimensions := ExtractDimensions widget.Options, Filters := filters,
            XHeaders := xHeader } with
      | (_, _, some err) => ⟨1, some (.error err)⟩
      | (dim, val, none) => ⟨1, some (.ok (.barChart val dim title widget.Options))⟩

/-- Go `(g *gaWidget) users(widget)`. -/
def gaWidget.users (env : Env) (widget : Widget) : Run :=
  let options := widget.Options.set optionMetric (str "users")
  gaWidget.barMetric env { widget with Options := options } env.XHeaderTime

/-- Go `(g *gaWidget) barReturning(widget)`. -/
def gaWidget.barReturning (env : Env) (widget : Widget) : Run :=
  let options := widget.Options.set optionMetric (str "users")
  let options := options.set optionDimensions (str "user_type")
  let options := options.set optionTitle (str " Returning users ")
  gaWidget.barMetric env { widget with Options := options } env.XHeaderTime

/-- Go `(g *gaWidget) barPages(widget)`. -/
def gaWidget.barPages (env : Env) (widget : Widget) : Run :=
  let options := widget.Options.set optionDimensions (str "page_path")
  let options := options.set optionMetric (str "page_views")
  if ¬ options.has optionFilters then
    ⟨0, some (.error (.new (str
      "The widget ga.bar_pages require a filter (relative url of your page, i.e '/my-super-page/')")))⟩
  else
    let options :=
      if ¬ options.has optionTitle then options.set optionTitle (options.get optionFilters)
      else options
    gaWidget.barMetric env { widget with Options := options } env.XHeaderTime

/-- Go `(g *gaWidget) barCountries(widget)`. -/
def gaWidget.barCountries (env : Env) (widget : Widget) : Run :=
  let options := widget.Options.set optionDimensions (str "country")
  let options := options.set optionMetric (str "sessions")
  let options :=
    if ¬ options.has optionTitle then options.set optionTitle (options.get optionFilters)
    else options
  gaWidget.barMetric env { widget with Options := options } env.XHeaderOtherDim

/-- Go `(g *gaWidget) barBounces(widget)`. -/
def gaWidget.barBounces (env : Env) (widget : Widget) : Run :=
  let options := widget.Options.set optionMetric (str "bounces")
  let options := options.set optionTitle (options.get optionTitle ++ str " Bounces ")
  gaWidget.barMetric env { widget with Options := options } env.XHeaderTime

/-- Go `(g *gaWidget) table(widget, firstHeader)`. -/
def gaWidget.table (env : Env) (widget : Widget) (firstHeader : GoString) : Run :=
  match globalOption widget.Options with
  | (_, some err) => ⟨0, some (.error err)⟩
  | (global, none) =>
    let dimension :=
      if widget.Options.has optionDimension ∧ (widget.Options.get optionDimension).length > 0 then
        widget.Options.get optionDimension
      else str "page_path"
    let metrics := listOption widget.Options optionMetrics
      [str "sessions", str "page_views", str "entrances", str "unique_page_views"]
    match metrics[0]? with
    | none => ⟨0, none⟩
    | some metric0 =>
      let orders := listOption widget.Options optionOrder [metric0 ++ str " desc"]
      match ExtractTimeRange env.tt env.now widget.Options with
      | (_, _, some err) => ⟨0, some (.error err)⟩
      | (startDate, endDate, none) =>
        let title := firstHeader ++ str " from " ++ env.Format startDate ++ str " to " ++
          env.Format endDate
        let title :=
          if widget.Options.has optionTitle then widget.Options.get optionTitle else title
        let filters := listOption widget.Options optionFilters []
        match limitOption widget.Options optionRowLimit 5 with
        | (_, some err) => ⟨0, some (.error err)⟩
        | (rowLimit, none) =>
          match env.Table
              { ViewID := env.viewID, StartDate := env.Format startDate,
                EndDate := env.Format endDate, Global := global, Metrics := metrics,
                Dimensions := [dimension], Filters := filters, Orders := orders,
                RowLimit := rowLimit } firstHeader with
          | (_, _, _, some err) => ⟨1, some (.error err)⟩
          | (headers, dim, val, none) =>
            let rowLimit := if rowLimit > (dim.length : Int) then (dim.length : Int) else rowLimit
            match limitOption widget.Options optionCharLimit 20 with
            | (_, some err) => ⟨1, some (.error err)⟩
            | (charLimit, none) =>
              match formatTable rowLimit dim val charLimit headers with
              | none => ⟨1, none⟩
              | some finalTable => ⟨1, some (.ok (.table finalTable title widget.Options))⟩

/-- Go `(g *gaWidget) trafficSource(widget)`. -/
def gaWidget.trafficSource (env : Env) (widget : Widget) : Run :=
  let options := widget.Options.set optionDimension (str "traffic_source")
  gaWidget.table env { widget with Options := options } (str "Source")

/-- The loop `for k, v := range val` of `stackedBar`: it stores the series in the slot `count`
of the 8-slot array `data`, appends its name and colour to the title and moves to the next
slot; an index outside `data` or outside `colors` panics. -/
def stackedBarLoop (env : Env) (colors : List Nat) :
    List (GoString × List Int) → Nat → List (List Int) → GoString →
      Option (List (List Int) × GoString)
  | [], _, data, title => some (data, title)
  | (k, v) :: val, count, data, title =>
    if count < data.length then
      let data := data.set count v
      let title := if count ≠ 0 then title ++ str "/ " else title
      match colors[count]? with
      | none => none
      | some color =>
        stackedBarLoop env colors val (count + 1) data
          (title ++ (k ++ str " (" ++ env.colorStr color ++ str ") "))
    else none

/-- Go `(g *gaWidget) stackedBar(widget)`. -/
def gaWidget.stackedBar (env : Env) (widget : Widget) : Run :=
  match ExtractTimeRange env.tt env.now widget.Options with
  | (_, _, some err) => ⟨0, some (.error err)⟩
  | (startDate, endDate, none) =>
    let timePeriod :=
      if widget.Options.has optionTimePeriod then
        TrimSpace (widget.Options.get optionTimePeriod)
      else str "day"
    match env.StackedBar
        { ViewID := env.viewID, StartDate := env.Format startDate,
          EndDate := env.Format endDate, TimePeriod := timePeriod,
          Metrics := [ExtractMetric widget.Options],
          Dimensions := ExtractDimensions widget.Options } with
    | (_, _, some err) => ⟨1, some (.error err)⟩
    | (dim, val, none) =>
      let colors := [env.blue, env.green, env.yellow, env.red, env.magenta]
      let colors :=
        if widget.Options.has optionFirstColor then
          colors.set 0 (env.colorLookUp (widget.Options.get optionFirstColor))
        else colors
      let colors :=
        if widget.Options.has optionSecondColor then
          colors.set 1 (env.colorLookUp (widget.Options.get optionSecondColor))
        else colors
      let colors :=
        if widget.Options.has optionThirdColor then
          colors.set 2 (env.colorLookUp (widget.Options.get optionThirdColor))
        else colors
      let colors :=
        if widget.Options.has optionFourthColor then
          colors.set 3 (env.colorLookUp (widget.Options.get optionFourthColor))
        else colors
      let colors :=
        if widget.Options.has optionFifthColor then
          colors.set 4 (env.colorLookUp (widget.Options.get optionFifthColor))
        else colors
      let title := env.Sprintf (Trim (env.Title (ExtractMetric widget.Options)) (str "_")) ++
        str " - "
      match stackedBarLoop env colors val 0 (List.replicate 8 []) title with
      | none => ⟨1, none⟩
      | some (data, title) =>
        let title :=
          if widget.Options.has optionTitle then widget.Options.get optionTitle else title
        ⟨1, some (.ok (.stackedBarChart data dim title colors widget.Options))⟩

/-- Go `(g *gaWidget) stackedBarNewReturningUsers(widget)`. -/
def gaWidget.stackedBarNewReturningUsers (env : Env) (widget : Widget) : Run :=
  let options := widget.Options.set optionDimensions (str "user_type")
  gaWidget.stackedBar env { widget with Options := options }

/-- Go `(g *gaWidget) stackedBarDevices(widget)`. -/
def gaWidget.stackedBarDevices (env : Env) (widget : Widget) : Run :=
  let options := widget.Options.set optionDimensions (str "device_category")
  gaWidget.stackedBar env { widget with Options := options }

/-- Go `(g *gaWidget) CreateWidgets(widget, tui)`: the dispatch on the widget name. -/
def gaWidget.CreateWidgets (env : Env) (widget : Widget) : Run :=
  if widget.Name = gaBoxRealtime then gaWidget.realTimeUser env widget
  else if widget.Name = gaBoxTotal then gaWidget.totalMetric env widget
  else if widget.Name = gaBarSessions then gaWidget.barMetric env widget env.XHeaderTime
  else if widget.Name = gaBarUsers then gaWidget.users env widget
  else if widget.Name = gaBar then gaWidget.barMetric env widget env.XHeaderTime
  else if widget.Name = gaTablePages then gaWidget.table env widget (str "Page")
  else if widget.Name = gaTableTrafficSources then gaWidget.trafficSource env widget
  else if widget.Name = gaBarNewReturning then gaWidget.stackedBarNewReturningUsers env widget
  else if widget.Name = gaBarDevices then gaWidget.stackedBarDevices env widget
  else if widget.Name = gaBarReturning then gaWidget.barReturning env widget
  else if widget.Name = gaBarPages then gaWidget.barPages env widget
  else if widget.Name = gaBarCountries then gaWidget.barCountries env widget
  else if widget.Name = gaBarBounces then gaWidget.barBounces env widget
  else if widget.Name = gaTable then
    gaWidget.table env widget (widget.Options.get optionDimension)
  else ⟨0, some (.error (.new (str "can't find the widget " ++ widget.Name)))⟩

/-! ## internal/remote_host_widget.go: the handlers -/

def rhUptime : GoString := str "rh.box_uptime"
def rhMemory : GoString := str "rh.bar_memory"

/-- Go `(ms *remoteHostWidget) boxUptime(widget)`. -/
def remoteHostWidget.boxUptime (env : Env) (widget : Widget) : Run :=
  let title := str "Uptime"
  let title := if widget.Options.has optionTitle then widget.Options.get optionTitle else title
  match env.Uptime with
  | (_, some err) => ⟨1, some (.error err)⟩
  | (uptime, none) => ⟨1, some (.ok (.uptimeBox uptime title widget.Options))⟩

/-- Go `(ms *remoteHostWidget) barGetMemory(widget)`. -/
def remoteHostWidget.barGetMemory (env : Env) (widget : Widget) : Run :=
  let title := str "Memory"
  let title := if widget.Options.has optionTitle then widget.Options.get optionTitle else title
  let metrics := listOption widget.Options optionMetrics
    [str "MemTotal", str "MemFree", str "MemAvailable"]
  let unit := if widget.Options.has optionUnit then widget.Options.get optionUnit else str "kb"
  match env.Memory metrics unit with
  | (_, some err) => ⟨1, some (.error err)⟩
  | (mem, none) => ⟨1, some (.ok (.barChart mem metrics title widget.Options))⟩

/-- Go `(ms *remoteHostWidget) CreateWidgets(widget, tui)`. -/
def remoteHostWidget.CreateWidgets (env : Env) (widget : Widget) : Run :=
  if widget.Name = rhUptime then remoteHostWidget.boxUptime env widget
  else if widget.Name = rhMemory then remoteHostWidget.barGetMemory env widget
  else ⟨0, some (.error (.new (str "can't find the widget " ++ widget.Name)))⟩

/-! ## internal/remote_host_widget.go: formatSeconds -/

/-- Go `time.Second`, in nanoseconds. -/
def Second : Int := 1000000000

/-- Go `time.Hour`, in nanoseconds. -/
def Hour : Int := 3600000000000

/-- Go `d.Hours()`: `float64(d / Hour) + float64(d % Hour) / (60*60*1e9)`, taken as the exact
rational number. The `float64` that Go computes is this number rounded, and the only use made
of it is the comparison with `24.0`, which the rounding cannot change: the hour count, the
remainder and the divisor are represented exactly, rounding is monotone and `24` is a
`float64`, so a sum of at most 24 stays at most 24, and a sum above 24 exceeds it by at least
`1/(3.6e12)`, far more than the spacing `2^-48` of the `float64` values next to 24. -/
def Duration.Hours (d : Int) : ℚ :=
  (d.tdiv Hour : ℚ) + (d.tmod Hour : ℚ) / (60 * 60 * 1000000000)

/-- Go `fmtFrac(buf, v, prec)` of package time: the text of the `prec` low decimal digits of
`v` as a fraction, without trailing zeros and without the point when they are all zero, and
`v / 10^prec`. -/
def fmtFrac (v prec : Nat) : GoString × Nat :=
  let digits := (List.range prec).map (fun i => 48 + v / 10 ^ i % 10)
  let kept := digits.dropWhile (fun c => c = 48)
  (if kept = [] then [] else 46 :: kept.reverse, v / 10 ^ prec)

/-- Go `fmtInt(buf, v)` of package time: `v` in decimal. -/
def fmtInt (v : Nat) : GoString := decimal v

/-- Go `d.String()` for a `time.Duration`: hours, minutes and seconds as in `72h3m0.5s`, the
units `ns`, `µs`, `ms` below one second, `0s` for zero. -/
def Duration.String (d : Int) : GoString :=
  let u := d.natAbs
  let body : GoString :=
    if u < 1000000000 then
      if u = 0 then str "0s"
      else if u < 1000 then fmtInt u ++ str "ns"
      else if u < 1000000 then fmtInt (fmtFrac u 3).2 ++ (fmtFrac u 3).1 ++ str "µs"
      else fmtInt (fmtFrac u 6).2 ++ (fmtFrac u 6).1 ++ str "ms"
    else
      let secs := (fmtFrac u 9).2
      let text := fmtInt (secs % 60) ++ (fmtFrac u 9).1 ++ str "s"
      let mins := secs / 60
      if mins > 0 then
        let text := fmtInt (mins % 60) ++ str "m" ++ text
        let hours := mins / 60
        if hours > 0 then fmtInt hours ++ str "h" ++ text else text
      else text
  if d < 0 then 45 :: body else body

/-- The loop `for dur.Hours() > 24.0 { days++; dur -= 24 * time.Hour }` of `formatSeconds`,
run for at most `fuel` rounds: the duration and the day count it ends with, `none` when the
rounds do not suffice. The duration only decreases while it exceeds 24 hours and the day
count stays below 2^63 / 24h, so neither leaves the 64-bit range. -/
def daysLoop : Nat → Int → Int → Option (Int × Int)
  | 0, dur, days => if Duration.Hours dur > 24 then none else some (dur, days)
  | fuel + 1, dur, days =>
    if Duration.Hours dur > 24 then daysLoop fuel (dur - 24 * Hour) (days + 1)
    else some (dur, days)

/-- The state of `formatSeconds` before it builds its text: the duration cut to whole seconds
and run through the two day loops of the source; the duration left and the day count. -/
def formatSecondsState (fuel : Nat) (dur : Int) : Option (Int × Int) :=
  let dur := dur - dur.tmod Second
  match daysLoop fuel dur 0 with
  | none => none
  | some (dur, days) => daysLoop fuel dur days

/-- Go `fmt.Sprintf("%d", n)` for an `int`. -/
def fmtD (n : Int) : GoString := if n < 0 then 45 :: fmtInt n.natAbs else fmtInt n.natAbs

/-- The text `formatSeconds` builds from the duration left and the day count: the days as
`"%dd "` when there are any, then `dur.String()` with a space after every `h` and `m`. The
`range` loop of the source visits characters; the only bytes above 0x7F that `String` yields
belong to `µ`, so visiting bytes inserts the same spaces. -/
def formatSecondsText (dur days : Int) : GoString :=
  let s1 := Duration.String dur
  let s2 := if days > 0 then fmtD days ++ str "d " else []
  s2 ++ s1.flatMap (fun ch => if ch = 104 ∨ ch = 109 then [ch, 32] else [ch])

/-- Go `formatSeconds(dur)`, with at most `fuel` rounds for each loop. -/
def formatSeconds (fuel : Nat) (dur : Int) : Option GoString :=
  match formatSecondsState fuel dur with
  | none => none
  | some (dur, days) => some (formatSecondsText dur days)

/-! ## Vocabulary of the statements -/

/-- A byte is a decimal digit. -/
def isDigit (c : Nat) : Prop := 48 ≤ c ∧ c ≤ 57

instance (c : Nat) : Decidable (isDigit c) := by unfold isDigit; infer_instance

/-- The number a run of decimal digits denotes in base ten. -/
def decimalValue (ds : GoString) : Nat := ds.foldl (fun n c => 10 * n + (c - 48)) 0

/-- The alias tokens of the date expressions. -/
def aliasTokens : List GoString := [yesterday, lastWeek, lastMonth, lastYear]

/-- The category tokens of the date expressions. -/
def categoryTokens : List GoString :=
  [today, daysAgo, thisWeek, weeksAgo, thisMonth, monthsAgo, thisYear, yearsAgo]

/-- Length of a month of the Gregorian calendar. -/
def monthLength (year month : Int) : Int :=
  if month = 2 then (if year % 4 = 0 ∧ (year % 100 ≠ 0 ∨ year % 400 = 0) then 29 else 28)
  else if month = 4 ∨ month = 6 ∨ month = 9 ∨ month = 11 then 30
  else 31

/-- The calendar date a text of the shape `YYYY-MM-DD` denotes: four digits, a hyphen, two
digits, a hyphen, two digits, with a month in 1..12 and a day that exists in that month. -/
def isoDate (s : GoString) : Option (Int × Int × Int) :=
  match s with
  | [y1, y2, y3, y4, h1, m1, m2, h2, d1, d2] =>
    let year : Int := ((y1 - 48) * 1000 + (y2 - 48) * 100 + (y3 - 48) * 10 + (y4 - 48) : Nat)
    let month : Int := ((m1 - 48) * 10 + (m2 - 48) : Nat)
    let day : Int := ((d1 - 48) * 10 + (d2 - 48) : Nat)
    if isDigit y1 ∧ isDigit y2 ∧ isDigit y3 ∧ isDigit y4 ∧ h1 = 45 ∧ isDigit m1 ∧ isDigit m2 ∧
        h2 = 45 ∧ isDigit d1 ∧ isDigit d2 ∧ 1 ≤ month ∧ month ≤ 12 ∧ 1 ≤ day ∧
        day ≤ monthLength year month then
      some (year, month, day)
    else none
  | _ => none

/-- The label cell as the specification words it, on the characters of the label: surrounding
whitespace removed, then the first `C` characters. -/
def labelSpec (C : Nat) (label : List Char) : List Char :=
  ((label.dropWhile Char.isWhitespace).reverse.dropWhile Char.isWhitespace).reverse.take C

/-- The bytes of a text given by its characters. -/
def bytes (text : List Char) : GoString := text.flatMap utf8

/-- A provider environment for the examples: fixed clock, constant provider answers. -/
def sampleEnv : Env where
  now := Date 2019 1 15 0
  tt := totimeSpec
  viewID := str "view"
  Format := fun _ => str "date"
  Title := fun s => s
  Sprintf := fun s => s
  colorLookUp := fun _ => 0
  colorStr := fun _ => str "color"
  blue := 5
  green := 3
  yellow := 4
  red := 2
  magenta := 6
  XHeaderTime := 0
  XHeaderOtherDim := 1
  RealTimeUsers := fun _ => (str "12", none)
  SimpleMetric := fun _ => (str "340", none)
  BarMetric := fun _ => ([str "01-14", str "01-15"], [3, 4], none)
  Table := fun _ _ =>
    ([str "Page", str "Sessions"], [str "/a", str "/b", str "/c", str "/d", str "/e"],
      [[str "1"], [str "2"], [str "3"], [str "4"], [str "5"]], none)
  StackedBar := fun _ =>
    ([str "01-14", str "01-15"], [(str "New Visitor", [1, 2]), (str "Returning Visitor", [3, 4])],
      none)
  Uptime := (90061000000000, none)
  Memory := fun _ _ => ([8, 4, 6], none)

/-- An error that one of the data providers of `env` returns for some request. -/
def Env.ProviderError (env : Env) (e : Error) : Prop :=
  (∃ v, (env.RealTimeUsers v).2 = some e) ∨ (∃ a, (env.SimpleMetric a).2 = some e) ∨
  (∃ a, (env.BarMetric a).2.2 = some e) ∨ (∃ a h, (env.Table a h).2.2.2 = some e) ∨
  (∃ a, (env.StackedBar a).2.2 = some e) ∨ env.Uptime.2 = some e ∨
  (∃ m u, (env.Memory m u).2 = some e)

/-- The error of the dispatchers for a widget name without handler:
`errors.Errorf("can't find the widget %s", name)`. -/
def unknownWidget (name : GoString) : Error := .new (str "can't find the widget " ++ name)

/-- An error that the date and option resolvers build: an error of the standard library or a
wrapped error. -/
def Error.isResolverError : Error → Bool
  | .lib _ => true
  | .wrap _ _ => true
  | _ => false

/-- The 14 widget names that `gaWidget.CreateWidgets` handles. -/
def gaKinds : List GoString :=
  [gaBoxRealtime, gaBoxTotal, gaBarSessions, gaBarUsers, gaBar, gaTablePages,
    gaTableTrafficSources, gaBarNewReturning, gaBarDevices, gaBarReturning, gaBarPages,
    gaBarCountries, gaBarBounces, gaTable]

/-- The provider environment of the examples with a stacked-bar result of six series. -/
def sampleEnvSix : Env :=
  { sampleEnv with
    StackedBar := fun _ =>
      ([str "01-14"], [(str "a", [1]), (str "b", [2]), (str "c", [3]), (str "d", [4]),
        (str "e", [5]), (str "f", [6])], none) }

/-! # Properties

## The calendar of the model -/

set_option maxRecDepth 8192

theorem str_underscore : str "_" = [95] := by decide

theorem Contains_cons (c : Nat) (s p : GoString) :
    Contains (c :: s) p = (p.isPrefixOf (c :: s) || Contains s p) := rfl

theorem Contains_append_left (a x p : GoString) (h : Contains x p = true) :
    Contains (a ++ x) p = true := by
  induction a with
  | nil => simpa using h
  | cons c a ih => simp [Contains_cons, ih]

theorem isPrefixOf_self_append (p b : GoString) : p.isPrefixOf (p ++ b) = true := by
  induction p with
  | nil => simp
  | cons c p ih => simp [List.isPrefixOf, ih]

theorem Contains_self_append (p b : GoString) : Contains (p ++ b) p = true := by
  cases p with
  | nil => cases b <;> simp [Contains]
  | cons c p =>
    have h := isPrefixOf_self_append (c :: p) b
    simp only [List.cons_append] at h ⊢
    simp [Contains_cons, h]

/-- A text occurs in every text built around it. -/
theorem Contains_infix (a p b : GoString) : Contains (a ++ p ++ b) p = true := by
  rw [List.append_assoc]
  exact Contains_append_left a (p ++ b) p (Contains_self_append p b)

theorem splitAux_head (p cur : GoString) :
    (splitAux [95] p 0 cur).headD [] = cur.reverse ++ p.takeWhile (fun c => c ≠ 95) := by
  induction p generalizing cur with
  | nil => simp [splitAux]
  | cons c s ih =>
    by_cases hc : c = 95
    · subst hc
      simp [splitAux, List.isPrefixOf]
    · have hne : (95 == c) = false := by
        simp only [beq_eq_false_iff_ne, ne_eq]
        exact fun h => hc h.symm
      have ih' := ih (c :: cur)
      simp only [List.reverse_cons, List.append_assoc, List.singleton_append] at ih'
      simp only [splitAux, List.isPrefixOf, hne, Bool.false_and, Bool.false_eq_true, if_false, ih']
      rw [List.takeWhile_cons, if_pos (by simpa using hc)]

/-- The first piece of a text split at `"_"` is the text before its first underscore. -/
theorem Split_head (p : GoString) :
    (Split p (str "_")).headD [] = p.takeWhile (fun c => c ≠ 95) := by
  rw [str_underscore, Split, splitAux_head]
  simp

theorem digitsLE_digits (fuel n : Nat) : ∀ c ∈ digitsLE fuel n, isDigit c := by
  induction fuel generalizing n with
  | zero => simp [digitsLE]
  | succ fuel ih =>
    intro c hc
    simp only [digitsLE, List.mem_cons] at hc
    rcases hc with rfl | hc
    · unfold isDigit; omega
    · split_ifs at hc
      · simp at hc
      · exact ih _ c hc

/-- The value of little-endian digit bytes. -/
theorem digitsLE_value (fuel n : Nat) (h : n < fuel) :
    (digitsLE fuel n).foldr (fun c v => 10 * v + (c - 48)) 0 = n := by
  induction fuel generalizing n with
  | zero => omega
  | succ fuel ih =>
    simp only [digitsLE, List.foldr_cons]
    split_ifs with h10
    · simp only [List.foldr_nil]; omega
    · rw [ih (n / 10) (by omega)]; omega

theorem digitsLE_last (fuel n : Nat) (h : n < fuel) (hn : 0 < n) :
    ∃ init c, digitsLE fuel n = init ++ [c] ∧ 49 ≤ c ∧ c ≤ 57 := by
  induction fuel generalizing n with
  | zero => omega
  | succ fuel ih =>
    simp only [digitsLE]
    split_ifs with h10
    · exact ⟨[], 48 + n % 10, rfl, by omega, by omega⟩
    · obtain ⟨init, c, hi, h1, h2⟩ := ih (n / 10) (by omega) (by omega)
      exact ⟨(48 + n % 10) :: init, c, by rw [hi]; rfl, h1, h2⟩

theorem decimal_digits (n : Nat) : ∀ c ∈ decimal n, isDigit c := by
  intro c hc
  exact digitsLE_digits (n + 1) n c (by simpa [decimal] using hc)

theorem decimal_value (n : Nat) : decimalValue (decimal n) = n := by
  simp only [decimalValue, decimal, List.foldl_reverse]
  exact digitsLE_value (n + 1) n (by omega)

theorem decimal_zero : decimal 0 = [48] := by decide

theorem decimal_head (n : Nat) (hn : 0 < n) :
    ∃ c r, decimal n = c :: r ∧ 49 ≤ c ∧ c ≤ 57 := by
  obtain ⟨init, c, hi, h1, h2⟩ := digitsLE_last (n + 1) n (by omega) hn
  exact ⟨c, init.reverse, by simp [decimal, hi], h1, h2⟩

theorem foldl_digits_mono (ds : GoString) (n : Nat) :
    n ≤ ds.foldl (fun n c => 10 * n + (c - 48)) n := by
  induction ds generalizing n with
  | nil => simp
  | cons c ds ih =>
    simp only [List.foldl_cons]
    exact le_trans (by omega) (ih _)

/-- On a run of decimal digits whose value fits 64 bits the digit loop of `ParseUint` returns
that value, in base ten. -/
theorem parseUintLoop_digits (ds : GoString) (n : Nat) (hd : ∀ c ∈ ds, isDigit c)
    (hv : ds.foldl (fun n c => 10 * n + (c - 48)) n < 2 ^ 64) :
    parseUintLoop true 10 ((2 ^ 64 - 1) / 10 + 1) (2 ^ intSize - 1) ds n false =
      .ok (ds.foldl (fun n c => 10 * n + (c - 48)) n, false) := by
  induction ds generalizing n with
  | nil => rfl
  | cons c ds ih =>
    have hc : isDigit c := hd c (List.mem_cons_self _ _)
    unfold isDigit at hc
    simp only [List.foldl_cons] at hv ⊢
    have hmono := foldl_digits_mono ds (10 * n + (c - 48))
    have hn1 : 10 * n + (c - 48) < 2 ^ 64 := lt_of_le_of_lt hmono hv
    have hne : c ≠ 95 := by omega
    have h0 : n * 10 % 2 ^ 64 = n * 10 := Nat.mod_eq_of_lt (by omega)
    have h1 : (n * 10 + (c - 48)) % 2 ^ 64 = 10 * n + (c - 48) := by
      rw [Nat.mod_eq_of_lt (by omega)]; omega
    rw [parseUintLoop]
    simp only [hne, false_and, if_false, hc, and_self, if_true]
    rw [if_neg (by omega), if_neg (by norm_num; omega)]
    simp only [h0, h1, intSize]
    rw [if_neg (by omega)]
    exact ih _ (fun x hx => hd x (List.mem_cons_of_mem _ hx)) hv

/-- `ParseInt` reads the decimal spelling of a number below 2^63 as that number. -/
theorem ParseInt_decimal (n : Nat) (h : n < 2 ^ 63) : ParseInt (decimal n) = ((n : Int), none) := by
  rcases Nat.eq_zero_or_pos n with rfl | hn
  · decide
  · obtain ⟨c, r, hcr, h1, h2⟩ := decimal_head n hn
    have hv := decimal_value n
    have hd := decimal_digits n
    rw [hcr] at hv hd ⊢
    have hloop := parseUintLoop_digits (c :: r) 0 hd (by
      simp only [decimalValue] at hv; rw [hv]; omega)
    simp only [decimalValue] at hv
    rw [hv] at hloop
    have hc48 : c ≠ 48 := by omega
    have hc43 : c ≠ 43 := by omega
    have hc45 : c ≠ 45 := by omega
    simp only [intSize] at hloop
    simp only [ParseInt, ParseUint, hc48, hc43, hc45, or_self, if_false, intSize, hloop,
      decide_False, Bool.false_eq_true, false_and, if_false, true_and]
    rw [if_neg (by omega)]

/-! ## time.Parse with the layout 2006-01-02 -/

theorem daysIn_monthLength (m y : Int) (h1 : 1 ≤ m) (h12 : m ≤ 12) :
    daysIn m y = monthLength y m := by
  have hiff : (y % 4 = 0 ∧ (y % 100 ≠ 0 ∨ y % 400 = 0)) ↔ isLeap y = true := by
    simp [isLeap]
  have t0 : daysBefore 0 = 0 := by decide
  have t1 : daysBefore 1 = 31 := by decide
  have t2 : daysBefore 2 = 59 := by decide
  have t3 : daysBefore 3 = 90 := by decide
  have t4 : daysBefore 4 = 120 := by decide
  have t5 : daysBefore 5 = 151 := by decide
  have t6 : daysBefore 6 = 181 := by decide
  have t7 : daysBefore 7 = 212 := by decide
  have t8 : daysBefore 8 = 243 := by decide
  have t9 : daysBefore 9 = 273 := by decide
  have t10 : daysBefore 10 = 304 := by decide
  have t11 : daysBefore 11 = 334 := by decide
  have t12 : daysBefore 12 = 365 := by decide
  simp only [daysIn, monthLength, hiff]
  interval_cases m <;> norm_num [t0, t1, t2, t3, t4, t5, t6, t7, t8, t9, t10, t11, t12]

theorem getnum2_eq (a b : Nat) (r : GoString) :
    getnum2 (a :: b :: r) =
      if isDigit a ∧ isDigit b then some ((((a - 48) * 10 + (b - 48) : Nat) : Int), r) else none := by
  simp only [getnum2, isDigit]

theorem parseDay_ne (bad : Time × Option Error) (year month : Int) (c : Nat) (r : GoString)
    (h : c ≠ 45) : parseDay bad year month (c :: r) = bad := by
  unfold parseDay
  split
  · next heq => simp only [List.cons.injEq] at heq; exact absurd heq.1 h
  · rfl

theorem parseMonth_ne (bad : Time × Option Error) (year : Int) (c : Nat) (r : GoString)
    (h : c ≠ 45) : parseMonth bad year (c :: r) = bad := by
  unfold parseMonth
  split
  · next heq => simp only [List.cons.injEq] at heq; exact absurd heq.1 h
  · rfl

/-- The day part accepts exactly `-DD` with an existing day. -/
theorem parseDay_eq (bad : Time × Option Error) (year month : Int) (hm1 : 1 ≤ month)
    (hm12 : month ≤ 12) (rest : GoString) :
    parseDay bad year month rest =
      match rest with
      | [h2, d1, d2] =>
        if h2 = 45 ∧ isDigit d1 ∧ isDigit d2 ∧ 1 ≤ (((d1 - 48) * 10 + (d2 - 48) : Nat) : Int) ∧
            (((d1 - 48) * 10 + (d2 - 48) : Nat) : Int) ≤ monthLength year month then
          (Date year month (((d1 - 48) * 10 + (d2 - 48) : Nat) : Int) 0, none)
        else bad
      | _ => bad := by
  rcases rest with _ | ⟨h2, _ | ⟨d1, _ | ⟨d2, _ | ⟨x, r⟩⟩⟩⟩
  · rfl
  · by_cases h : h2 = 45
    · subst h; rfl
    · exact parseDay_ne _ _ _ _ _ h
  · by_cases h : h2 = 45
    · subst h; rfl
    · exact parseDay_ne _ _ _ _ _ h
  · by_cases h : h2 = 45
    · subst h
      simp only [parseDay, getnum2_eq, true_and]
      by_cases hd : isDigit d1 ∧ isDigit d2
      · simp only [hd, and_self, if_true, true_and, ne_eq, not_true_eq_false, if_false]
        generalize (((d1 - 48) * 10 + (d2 - 48) : Nat) : Int) = day
        rw [daysIn_monthLength month year hm1 hm12]
        by_cases hdr : day < 1 ∨ day > monthLength year month
        · rw [if_pos hdr, if_neg (by omega)]
        · rw [if_neg hdr, if_pos (by omega)]
      · rw [if_neg hd, if_neg (by tauto)]
    · rw [parseDay_ne _ _ _ _ _ h]
      simp only [h, false_and, if_false]
  · by_cases h : h2 = 45
    · subst h
      simp only [parseDay, getnum2_eq]
      split_ifs <;> simp
    · exact parseDay_ne _ _ _ _ _ h

/-- The month part accepts exactly `-MM-DD` with a month in 1..12 and an existing day. -/
theorem parseMonth_eq (bad : Time × Option Error) (year : Int) (rest : GoString) :
    parseMonth bad year rest =
      match rest with
      | [h1, m1, m2, h2, d1, d2] =>
        if h1 = 45 ∧ isDigit m1 ∧ isDigit m2 ∧ h2 = 45 ∧ isDigit d1 ∧ isDigit d2 ∧
            1 ≤ (((m1 - 48) * 10 + (m2 - 48) : Nat) : Int) ∧
            (((m1 - 48) * 10 + (m2 - 48) : Nat) : Int) ≤ 12 ∧
            1 ≤ (((d1 - 48) * 10 + (d2 - 48) : Nat) : Int) ∧
            (((d1 - 48) * 10 + (d2 - 48) : Nat) : Int) ≤
              monthLength year (((m1 - 48) * 10 + (m2 - 48) : Nat) : Int) then
          (Date year (((m1 - 48) * 10 + (m2 - 48) : Nat) : Int)
            (((d1 - 48) * 10 + (d2 - 48) : Nat) : Int) 0, none)
        else bad
      | _ => bad := by
  rcases rest with _ | ⟨h1, rest⟩
  · rfl
  by_cases h : h1 = 45
  swap
  · rw [parseMonth_ne _ _ _ _ h]
    split
    · next heq =>
      simp only [List.cons.injEq] at heq
      rw [if_neg (by rintro ⟨h', -⟩; exact h (heq.1 ▸ h'))]
    · rfl
  subst h
  rcases rest with _ | ⟨m1, _ | ⟨m2, rest⟩⟩
  · rfl
  · rfl
  simp only [parseMonth, getnum2_eq, true_and]
  by_cases hm : isDigit m1 ∧ isDigit m2
  swap
  · rw [if_neg hm]
    rcases rest with _ | ⟨h2, _ | ⟨d1, _ | ⟨d2, _ | ⟨x, r⟩⟩⟩⟩
    all_goals first
      | rfl
      | (simp only; rw [if_neg (by tauto)])
  simp only [hm, and_self, if_true, true_and]
  obtain ⟨month, hmonth⟩ : ∃ month : Int, month = (((m1 - 48) * 10 + (m2 - 48) : Nat) : Int) :=
    ⟨_, rfl⟩
  rw [← hmonth]
  by_cases hmr : month ≤ 0 ∨ 12 < month
  · rw [if_pos hmr]
    rcases rest with _ | ⟨h2, _ | ⟨d1, _ | ⟨d2, _ | ⟨x, r⟩⟩⟩⟩
    all_goals first
      | rfl
      | (simp only [← hmonth]; rw [if_neg (by omega)])
  · rw [if_neg hmr, parseDay_eq bad year month (by omega) (by omega)]
    rcases rest with _ | ⟨h2, _ | ⟨d1, _ | ⟨d2, _ | ⟨x, r⟩⟩⟩⟩
    · rfl
    · rfl
    · rfl
    · simp only [← hmonth]
      by_cases hc : h2 = 45 ∧ isDigit d1 ∧ isDigit d2 ∧
          1 ≤ (((d1 - 48) * 10 + (d2 - 48) : Nat) : Int) ∧
          (((d1 - 48) * 10 + (d2 - 48) : Nat) : Int) ≤ monthLength year month
      · rw [if_pos hc, if_pos ⟨trivial, hm.1, hm.2, hc.1, hc.2.1, hc.2.2.1, by omega, by omega,
          hc.2.2.2.1, hc.2.2.2.2⟩]
      · rw [if_neg hc, if_neg (by tauto)]
    · rfl

/-- `time.Parse("2006-01-02", s)` succeeds exactly on the texts that denote a calendar date,
and returns that date at midnight UTC. -/
theorem ParseDate_isoDate (s : GoString) :
    ParseDate s =
      match isoDate s with
      | some (y, m, d) => (Date y m d 0, none)
      | none => (Time.zero, some (.lib (.timeParse s))) := by
  rcases s with _ | ⟨y1, _ | ⟨y2, _ | ⟨y3, _ | ⟨y4, rest⟩⟩⟩⟩
  · rfl
  · rfl
  · rfl
  · rfl
  simp only [ParseDate]
  by_cases hy : (48 ≤ y1 ∧ y1 ≤ 57) ∧ (48 ≤ y2 ∧ y2 ≤ 57) ∧ (48 ≤ y3 ∧ y3 ≤ 57) ∧
      (48 ≤ y4 ∧ y4 ≤ 57)
  swap
  · rw [if_neg hy]
    rcases rest with _ | ⟨h1, _ | ⟨m1, _ | ⟨m2, _ | ⟨h2, _ | ⟨d1, _ | ⟨d2, _ | ⟨x, r⟩⟩⟩⟩⟩⟩⟩
    all_goals first
      | rfl
      | (simp only [isoDate, isDigit]; rw [if_neg (by tauto)])
  rw [if_pos hy, parseMonth_eq]
  rcases rest with _ | ⟨h1, _ | ⟨m1, _ | ⟨m2, _ | ⟨h2, _ | ⟨d1, _ | ⟨d2, _ | ⟨x, r⟩⟩⟩⟩⟩⟩⟩
  all_goals first
    | rfl
    | (simp only [isoDate]
       have hy' : isDigit y1 ∧ isDigit y2 ∧ isDigit y3 ∧ isDigit y4 := hy
       split_ifs with ha hb hb
       · rfl
       · exact absurd ⟨hy'.1, hy'.2.1, hy'.2.2.1, hy'.2.2.2, ha⟩ hb
       · exact absurd hb.2.2.2.2 ha
       · rfl)

/-! ## The date range resolver -/

theorem ConvertDates_congr (tt : Totime) (base : Time) (s s' e e' : GoString)
    (hs : resolveAlias s = resolveAlias s') (he : resolveAlias e = resolveAlias e') :
    ConvertDates tt base s e = ConvertDates tt base s' e' := by
  simp only [ConvertDates, hs, he]

/-- C2: alias rewriting preserves the resolved range. An expression that contains an alias
token (the first it contains in the order yesterday, last_week, last_month, last_year) gives
the same result, dates or error, as the canonical form `1_days_ago`, `1_weeks_ago`,
`1_months_ago`, `1_years_ago`, on the start side and on the end side; in particular
`yesterday` resolves as `1_days_ago` and `last_week` as `1_weeks_ago`. -/
theorem ConvertDates_alias (tt : Totime) (base : Time) (s e : GoString) :
    (Contains s yesterday = true →
      ConvertDates tt base s e = ConvertDates tt base (str "1_days_ago") e ∧
      ConvertDates tt base e s = ConvertDates tt base e (str "1_days_ago")) ∧
    (Contains s yesterday = false → Contains s lastWeek = true →
      ConvertDates tt base s e = ConvertDates tt base (str "1_weeks_ago") e ∧
      ConvertDates tt base e s = ConvertDates tt base e (str "1_weeks_ago")) ∧
    (Contains s yesterday = false → Contains s lastWeek = false →
      Contains s lastMonth = true →
      ConvertDates tt base s e = ConvertDates tt base (str "1_months_ago") e ∧
      ConvertDates tt base e s = ConvertDates tt base e (str "1_months_ago")) ∧
    (Contains s yesterday = false → Contains s lastWeek = false →
      Contains s lastMonth = false → Contains s lastYear = true →
      ConvertDates tt base s e = ConvertDates tt base (str "1_years_ago") e ∧
      ConvertDates tt base e s = ConvertDates tt base e (str "1_years_ago")) ∧
    ConvertDates tt base (str "yesterday") (str "today") =
      ConvertDates tt base (str "1_days_ago") (str "today") ∧
    ConvertDates tt base (str "last_week") e = ConvertDates tt base (str "1_weeks_ago") e := by
  have d1 : resolveAlias (str "1_days_ago") = str "1_days_ago" := by decide
  have d2 : resolveAlias (str "1_weeks_ago") = str "1_weeks_ago" := by decide
  have d3 : resolveAlias (str "1_months_ago") = str "1_months_ago" := by decide
  have d4 : resolveAlias (str "1_years_ago") = str "1_years_ago" := by decide
  refine ⟨fun h1 => ?_, fun h1 h2 => ?_, fun h1 h2 h3 => ?_, fun h1 h2 h3 h4 => ?_, ?_, ?_⟩
  · have hr : resolveAlias s = resolveAlias (str "1_days_ago") := by
      rw [d1]; simp [resolveAlias, h1]
    exact ⟨ConvertDates_congr tt base _ _ _ _ hr rfl, ConvertDates_congr tt base _ _ _ _ rfl hr⟩
  · have hr : resolveAlias s = resolveAlias (str "1_weeks_ago") := by
      rw [d2]; simp [resolveAlias, h1, h2]
    exact ⟨ConvertDates_congr tt base _ _ _ _ hr rfl, ConvertDates_congr tt base _ _ _ _ rfl hr⟩
  · have hr : resolveAlias s = resolveAlias (str "1_months_ago") := by
      rw [d3]; simp [resolveAlias, h1, h2, h3]
    exact ⟨ConvertDates_congr tt base _ _ _ _ hr rfl, ConvertDates_congr tt base _ _ _ _ rfl hr⟩
  · have hr : resolveAlias s = resolveAlias (str "1_years_ago") := by
      rw [d4]; simp [resolveAlias, h1, h2, h3, h4]
    exact ⟨ConvertDates_congr tt base _ _ _ _ hr rfl, ConvertDates_congr tt base _ _ _ _ rfl hr⟩
  · exact ConvertDates_congr tt base _ _ _ _ (by decide) rfl
  · exact ConvertDates_congr tt base _ _ _ _ (by decide) rfl

/-- C2, instance: an expression that contains `last_week` resolves as `1_weeks_ago`, from Monday 2019-01-07 on. -/
theorem ConvertDates_alias_witness :
    Contains (str "since last_week") yesterday = false ∧
      Contains (str "since last_week") lastWeek = true ∧
      ConvertDates totimeSpec (Date 2019 1 15 0) (str "since last_week") (str "today") =
        ConvertDates totimeSpec (Date 2019 1 15 0) (str "1_weeks_ago") (str "today") ∧
      ConvertDates totimeSpec (Date 2019 1 15 0) (str "1_weeks_ago") (str "today") =
        (Date 2019 1 7 0, Date 2019 1 15 0, none) :=
  ⟨by decide, by decide,
    ((ConvertDates_alias totimeSpec (Date 2019 1 15 0) (str "since last_week")
      (str "today")).2.1 (by decide) (by decide)).1, by decide⟩

/-- C3, the code at the failing input: the end side of `this_year` and of `N_years_ago` takes
the first value returned by `totime.ThisYear` and `totime.PrevYears`, the start of the year.
On 2019-06-15 the end dates resolved for `this_year` and `2_years_ago` are 2019-01-01 and
2017-01-01, not December 31 of those years. -/
theorem convertEndDate_year_takes_start (tt : Totime) (base : Time) :
    convertEndDate tt base (str "this_year") = ((tt.ThisYear base).1, none) ∧
    convertEndDate tt base (str "2_years_ago") = ((tt.PrevYears base 2).1, none) ∧
    convertStartDate tt base (str "this_year") = ((tt.ThisYear base).1, none) ∧
    ConvertDates totimeSpec (Date 2019 6 15 0) (str "today") (str "this_year") =
      (Date 2019 6 15 0, Date 2019 1 1 0, none) ∧
    ConvertDates totimeSpec (Date 2019 6 15 0) (str "today") (str "2_years_ago") =
      (Date 2019 6 15 0, Date 2017 1 1 0, none) ∧
    (totimeSpec.ThisYear (Date 2019 6 15 0)).2 = Date 2019 12 31 0 ∧
    Date 2019 1 1 0 ≠ Date 2019 12 31 0 := by
  refine ⟨?_, ?_, ?_, by decide, by decide, by decide, by decide⟩
  · have h1 : Contains (str "this_year") today = false := by decide
    have h2 : Contains (str "this_year") daysAgo = false := by decide
    have h3 : Contains (str "this_year") thisWeek = false := by decide
    have h4 : Contains (str "this_year") weeksAgo = false := by decide
    have h5 : Contains (str "this_year") thisMonth = false := by decide
    have h6 : Contains (str "this_year") monthsAgo = false := by decide
    have h7 : Contains (str "this_year") thisYear = true := by decide
    simp only [convertEndDate, h1, h2, h3, h4, h5, h6, h7, Bool.false_eq_true, if_false, if_true]
  · have h1 : Contains (str "2_years_ago") today = false := by decide
    have h2 : Contains (str "2_years_ago") daysAgo = false := by decide
    have h3 : Contains (str "2_years_ago") thisWeek = false := by decide
    have h4 : Contains (str "2_years_ago") weeksAgo = false := by decide
    have h5 : Contains (str "2_years_ago") thisMonth = false := by decide
    have h6 : Contains (str "2_years_ago") monthsAgo = false := by decide
    have h7 : Contains (str "2_years_ago") thisYear = false := by decide
    have h8 : Contains (str "2_years_ago") yearsAgo = true := by decide
    have h9 : ExtractCountPeriod (str "2_years_ago") = (2, none) := by decide
    simp only [convertEndDate, h1, h2, h3, h4, h5, h6, h7, h8, h9, Bool.false_eq_true, if_false,
      if_true]
  · have h1 : Contains (str "this_year") today = false := by decide
    have h2 : Contains (str "this_year") daysAgo = false := by decide
    have h3 : Contains (str "this_year") thisWeek = false := by decide
    have h4 : Contains (str "this_year") weeksAgo = false := by decide
    have h5 : Contains (str "this_year") thisMonth = false := by decide
    have h6 : Contains (str "this_year") monthsAgo = false := by decide
    have h7 : Contains (str "this_year") thisYear = true := by decide
    simp only [convertStartDate, h1, h2, h3, h4, h5, h6, h7, Bool.false_eq_true, if_false,
      if_true]

theorem convert_fallthrough (tt : Totime) (base : Time) (e : GoString)
    (hno : ∀ t ∈ categoryTokens, Contains e t = false) :
    convertStartDate tt base e = ParseDate e ∧ convertEndDate tt base e = ParseDate e := by
  have h1 : Contains e today = false := hno _ (by simp [categoryTokens])
  have h2 : Contains e daysAgo = false := hno _ (by simp [categoryTokens])
  have h3 : Contains e thisWeek = false := hno _ (by simp [categoryTokens])
  have h4 : Contains e weeksAgo = false := hno _ (by simp [categoryTokens])
  have h5 : Contains e thisMonth = false := hno _ (by simp [categoryTokens])
  have h6 : Contains e monthsAgo = false := hno _ (by simp [categoryTokens])
  have h7 : Contains e thisYear = false := hno _ (by simp [categoryTokens])
  have h8 : Contains e yearsAgo = false := hno _ (by simp [categoryTokens])
  constructor
  · simp only [convertStartDate, h1, h2, h3, h4, h5, h6, h7, h8, Bool.false_eq_true, if_false]
  · simp only [convertEndDate, h1, h2, h3, h4, h5, h6, h7, h8, Bool.false_eq_true, if_false]

theorem resolveAlias_none (e : GoString) (hno : ∀ t ∈ aliasTokens, Contains e t = false) :
    resolveAlias e = e := by
  have h1 : Contains e yesterday = false := hno _ (by simp [aliasTokens])
  have h2 : Contains e lastWeek = false := hno _ (by simp [aliasTokens])
  have h3 : Contains e lastMonth = false := hno _ (by simp [aliasTokens])
  have h4 : Contains e lastYear = false := hno _ (by simp [aliasTokens])
  simp only [resolveAlias, h1, h2, h3, h4, Bool.false_eq_true, if_false]

/-- C4: an expression that contains none of the alias tokens and none of the category tokens
is resolved, on either side, by date parsing alone. Resolution succeeds if and only if the
expression is a valid YYYY-MM-DD calendar date and then yields exactly that date; otherwise
the side, and `ConvertDates` once it resolves that side, fails with the error of date parsing
and returns zero dates. -/
theorem ConvertDates_fallthrough (tt : Totime) (base : Time) (e other : GoString)
    (hno : ∀ t ∈ aliasTokens ++ categoryTokens, Contains e t = false) :
    convertStartDate tt base (resolveAlias e) = ParseDate e ∧
    convertEndDate tt base (resolveAlias e) = ParseDate e ∧
    ((ParseDate e).2 = none ↔ (isoDate e).isSome = true) ∧
    (∀ y m d, isoDate e = some (y, m, d) → ParseDate e = (Date y m d 0, none)) ∧
    (isoDate e = none →
      ParseDate e = (Time.zero, some (.lib (.timeParse e))) ∧
      ConvertDates tt base e other = (Time.zero, Time.zero, some (.lib (.timeParse e))) ∧
      ((convertStartDate tt base (resolveAlias other)).2 = none →
        ConvertDates tt base other e =
          (Time.zero, Time.zero, some (.lib (.timeParse e))))) := by
  have ha : resolveAlias e = e :=
    resolveAlias_none e (fun t ht => hno t (List.mem_append_left _ ht))
  obtain ⟨hs, he⟩ := convert_fallthrough tt base e (fun t ht => hno t (List.mem_append_right _ ht))
  have hp := ParseDate_isoDate e
  refine ⟨by rw [ha, hs], by rw [ha, he], ?_, ?_, ?_⟩
  · rw [hp]
    cases hiso : isoDate e with
    | none => simp
    | some v => simp
  · intro y m d hiso
    rw [hp, hiso]
  · intro hiso
    rw [hiso] at hp
    refine ⟨hp, ?_, ?_⟩
    · simp only [ConvertDates, ha, hs, hp]
    · intro hok
      simp only [ConvertDates, ha, he, hp]
      cases hc : convertStartDate tt base (resolveAlias other) with
      | mk start err =>
        rw [hc] at hok
        simp only at hok
        subst hok
        rfl

/-- C4, instance: the near-miss `3_day_ago` contains no token and fails in date parsing, on the start side and on the end side. -/
theorem ConvertDates_fallthrough_witness :
    (∀ t ∈ aliasTokens ++ categoryTokens, Contains (str "3_day_ago") t = false) ∧
    isoDate (str "3_day_ago") = none ∧
    ConvertDates totimeSpec (Date 2019 1 15 0) (str "3_day_ago") (str "today") =
      (Time.zero, Time.zero, some (.lib (.timeParse (str "3_day_ago")))) ∧
    (convertStartDate totimeSpec (Date 2019 1 15 0) (resolveAlias (str "today"))).2 = none ∧
    ConvertDates totimeSpec (Date 2019 1 15 0) (str "today") (str "3_day_ago") =
      (Time.zero, Time.zero, some (.lib (.timeParse (str "3_day_ago")))) :=
  ⟨by decide, by decide,
    ((ConvertDates_fallthrough totimeSpec (Date 2019 1 15 0) (str "3_day_ago") (str "today")
      (by decide)).2.2.2.2 (by decide)).2.1,
    by decide,
    ((ConvertDates_fallthrough totimeSpec (Date 2019 1 15 0) (str "3_day_ago") (str "today")
      (by decide)).2.2.2.2 (by decide)).2.2 (by decide)⟩

/-- A literal date outside any token resolves to itself on both sides. -/
theorem ConvertDates_literal_example :
    ConvertDates totimeSpec (Date 2019 1 15 0) (str "2018-12-24") (str "2019-01-06") =
      (Date 2018 12 24 0, Date 2019 1 6 0, none) := by
  decide

theorem ParseInt_nondigit (c : Nat) (r : GoString) (hd : ¬ isDigit c) (h43 : c ≠ 43)
    (h45 : c ≠ 45) (h95 : c ≠ 95) :
    ParseInt (c :: r) = (0, some (.lib (.num (c :: r) .invalid))) := by
  unfold isDigit at hd
  have h48 : c ≠ 48 := by omega
  have hloop : parseUintLoop true 10 ((2 ^ 64 - 1) / 10 + 1) (2 ^ 64 - 1) (c :: r) 0 false =
      .error (0, .invalid) := by
    rw [parseUintLoop]
    simp only [h95, false_and, if_false, hd]
    by_cases hl : 97 ≤ lower c ∧ lower c ≤ 122
    · simp only [hl, and_self, if_true]
      rw [if_pos (by omega)]
    · simp only [hl, if_false]
  simp only [ParseInt, ParseUint, h43, h45, h48, or_self, if_false, intSize, hloop]

/-- C5, amended: `ExtractCountPeriod(p)` looks only at the text before the first `_` and reads
it as `strconv.ParseInt` does with base 0. When that text is the decimal spelling without
leading zeros of a number below 2^63 the result is that number; when it is empty or starts
with a byte that is neither a digit nor a sign the result is an error; and every error
returned carries a message that contains the expression `p`. -/
theorem ExtractCountPeriod_spec (libMsg : Error → GoString) (p : GoString) :
    (ExtractCountPeriod p =
      match ParseInt (p.takeWhile (fun c => c ≠ 95)) with
      | (_, some err) =>
        (0, some (.wrap err (p.takeWhile (fun c => c ≠ 95) ++ str " is from " ++ p ++
          str " not a valid number")))
      | (v, none) => (v, none)) ∧
    (∀ N : Nat, N < 2 ^ 63 → p.takeWhile (fun c => c ≠ 95) = decimal N →
      ExtractCountPeriod p = ((N : Int), none)) ∧
    ((p.takeWhile (fun c => c ≠ 95) = [] ∨
        ∃ c r, p.takeWhile (fun c => c ≠ 95) = c :: r ∧ ¬ isDigit c ∧ c ≠ 43 ∧ c ≠ 45) →
      ∃ err, ExtractCountPeriod p = (0, some err)) ∧
    (∀ err, (ExtractCountPeriod p).2 = some err →
      Contains (Error.message libMsg err) p = true) := by
  have hdef : ExtractCountPeriod p =
      match ParseInt (p.takeWhile (fun c => c ≠ 95)) with
      | (_, some err) =>
        (0, some (.wrap err (p.takeWhile (fun c => c ≠ 95) ++ str " is from " ++ p ++
          str " not a valid number")))
      | (v, none) => (v, none) := by
    simp only [ExtractCountPeriod, Split_head]
    try rfl
  refine ⟨hdef, ?_, ?_, ?_⟩
  · intro N hN ht
    rw [hdef, ht, ParseInt_decimal N hN]
  · rintro (h0 | ⟨c, r, hcr, hd, h43, h45⟩)
    · rw [hdef, h0]
      exact ⟨_, rfl⟩
    · have h95 : c ≠ 95 := by
        have hmem : c ∈ p.takeWhile (fun c => c ≠ 95) := by rw [hcr]; exact List.mem_cons_self _ _
        simpa using List.mem_takeWhile_imp hmem
      rw [hdef, hcr, ParseInt_nondigit c r hd h43 h45 h95]
      exact ⟨_, rfl⟩
  · intro err herr
    rw [hdef] at herr
    cases hp : ParseInt (p.takeWhile (fun c => c ≠ 95)) with
    | mk v e =>
      rw [hp] at herr
      cases e with
      | none => simp at herr
      | some cause =>
        simp only [Option.some.injEq] at herr
        subst herr
        simp only [Error.message]
        have h := Contains_infix (p.takeWhile (fun c => c ≠ 95) ++ str " is from ") p
          (str " not a valid number" ++ str ": " ++ Error.message libMsg cause)
        simpa only [List.append_assoc] using h

/-- C5, instance: `5_weeks_ago` gives 5. -/
theorem ExtractCountPeriod_spec_witness :
    (5 : Nat) < 2 ^ 63 ∧ (str "5_weeks_ago").takeWhile (fun c => c ≠ 95) = decimal 5 ∧
      ExtractCountPeriod (str "5_weeks_ago") = (5, none) :=
  ⟨by decide, by decide,
    (ExtractCountPeriod_spec (fun _ => []) (str "5_weeks_ago")).2.1 5 (by decide) (by decide)⟩

/-- C5, counterexample: `010` is a non-empty run of decimal digits that denotes ten, yet
`ExtractCountPeriod("010_days_ago")` is 8; `08` is a run of decimal digits and is rejected;
and the hexadecimal and signed spellings `0x1F` and `-5` are accepted, not rejected. -/
theorem ExtractCountPeriod_not_decimal :
    decimalValue (str "010") = 10 ∧
    ExtractCountPeriod (str "010_days_ago") = (8, none) ∧
    (ExtractCountPeriod (str "08_days_ago")).2 ≠ none ∧
    ExtractCountPeriod (str "0x1F_days_ago") = (31, none) ∧
    ExtractCountPeriod (str "-5_days_ago") = (-5, none) := by
  decide

/-! ## Table shaping -/

theorem formatTableLoop_rows (rowLimit : Int) (dim : List GoString) (charLimit : Int)
    (val : List (List GoString)) :
    ∀ (k : Nat) (table t : List (List GoString)),
      formatTableLoop rowLimit dim charLimit k val table = some t →
      ∃ rows : List (List GoString), t = table ++ rows ∧ rows.length ≤ val.length ∧
        ∀ j, j < rows.length → ∃ label v cell, dim[k + j]? = some label ∧ val[j]? = some v ∧
          shapeLabel label charLimit = some cell ∧ rows[j]? = some (cell :: v) := by
  induction val with
  | nil =>
    intro k table t h
    simp only [formatTableLoop, Option.some.injEq] at h
    exact ⟨[], by simp [h], by simp, by simp⟩
  | cons v val ih =>
    intro k table t h
    rw [formatTableLoop] at h
    split_ifs at h with hk
    · simp only [Option.some.injEq] at h
      exact ⟨[], by simp [h], by simp, by simp⟩
    · cases hd : dim[k]? with
      | none => rw [hd] at h; simp at h
      | some label =>
        rw [hd] at h
        simp only at h
        cases hs : shapeLabel label charLimit with
        | none => rw [hs] at h; simp at h
        | some cell =>
          rw [hs] at h
          simp only at h
          obtain ⟨rows, ht, hlen, hrows⟩ := ih (k + 1) _ t h
          refine ⟨(cell :: v) :: rows, by simp [ht], by simp [hlen], ?_⟩
          intro j hj
          cases j with
          | zero => exact ⟨label, v, cell, by simpa using hd, by simp, hs, by simp⟩
          | succ j =>
            obtain ⟨l', v', c', h1, h2, h3, h4⟩ := hrows j (by simpa using hj)
            refine ⟨l', v', c', ?_, by simpa using h2, h3, by simpa using h4⟩
            rw [← h1]; congr 1; omega

theorem shapeLabel_some (label : GoString) (charLimit : Int) (hC : 0 ≤ charLimit) :
    shapeLabel label charLimit = some ((Trim label (str " ")).take charLimit.toNat) := by
  simp only [shapeLabel]
  split_ifs with h
  · simp only [sliceTo]
    rw [if_neg (by omega)]
  · rw [List.take_of_length_le (by omega)]

theorem formatTableLoop_length (rowLimit : Int) (dim : List GoString) (charLimit : Int)
    (hC : 0 ≤ charLimit) (val : List (List GoString)) :
    ∀ (k : Nat) (table : List (List GoString)), (k : Int) ≤ rowLimit →
      (k : Int) + min (rowLimit - k) val.length ≤ dim.length →
      ∃ t, formatTableLoop rowLimit dim charLimit k val table = some t ∧
        (t.length : Int) = table.length + min (rowLimit - k) val.length := by
  induction val with
  | nil =>
    intro k table hk _
    exact ⟨table, rfl, by simp; omega⟩
  | cons v val ih =>
    intro k table hk hdim
    rw [formatTableLoop]
    split_ifs with hkr
    · exact ⟨table, rfl, by simp; omega⟩
    · have hlt : k < dim.length := by
        simp only [List.length_cons, Nat.cast_add, Nat.cast_one] at hdim
        omega
      rw [List.getElem?_eq_getElem hlt]
      simp only [shapeLabel_some _ _ hC]
      obtain ⟨t, ht, hlen⟩ := ih (k + 1) (table ++ [(Trim dim[k] (str " ")).take charLimit.toNat :: v])
        (by push_cast; omega) (by
          simp only [List.length_cons, Nat.cast_add, Nat.cast_one] at hdim ⊢
          omega)
      refine ⟨t, ht, ?_⟩
      rw [hlen]
      simp only [List.length_append, List.length_cons, List.length_nil, Nat.cast_add,
        Nat.cast_one]
      omega

theorem TrimLeft_of_head (s cut : GoString) (h : ∀ c, s.head? = some c → cut.contains c = false) :
    TrimLeft s cut = s := by
  cases s with
  | nil => rfl
  | cons c s =>
    have hc : cut.contains c = false := h c rfl
    unfold TrimLeft
    rw [List.dropWhile_cons]
    simp only [hc, Bool.false_eq_true, if_false]

theorem TrimRight_of_last (s cut : GoString)
    (h : ∀ c, s.getLast? = some c → cut.contains c = false) : TrimRight s cut = s := by
  unfold TrimRight
  rw [TrimLeft_of_head s.reverse cut (by simpa [List.head?_reverse] using h), List.reverse_reverse]

theorem TrimLeft_head (s cut : GoString) (c : Nat) (h : (TrimLeft s cut).head? = some c) :
    cut.contains c = false := by
  have := List.head?_dropWhile_not (fun c => cut.contains c) s
  unfold TrimLeft at h
  rw [h] at this
  simpa using this

theorem TrimRight_head (s cut : GoString) (c : Nat) (h : (TrimRight s cut).head? = some c) :
    s.head? = some c := by
  have hp : TrimRight s cut <+: s := by
    unfold TrimRight TrimLeft
    exact List.rdropWhile_prefix (fun c => cut.contains c) s
  obtain ⟨t, ht⟩ := hp
  rw [← ht]
  cases hq : TrimRight s cut with
  | nil => rw [hq] at h; simp at h
  | cons a r => rw [hq] at h; simpa using h

theorem TrimRight_length (s cut : GoString) : (TrimRight s cut).length ≤ s.length := by
  unfold TrimRight TrimLeft
  simpa using (List.dropWhile_sublist (fun c => cut.contains c) (l := s.reverse)).length_le

theorem take_head (s : GoString) (n : Nat) (c : Nat) (h : (s.take n).head? = some c) :
    s.head? = some c := by
  cases s with
  | nil => simp at h
  | cons a r =>
    cases n with
    | zero => simp at h
    | succ n => simpa using h

/-- Shaping a shaped label again only removes the trailing cutset bytes the cut exposed. -/
theorem shapeLabel_again (L q : GoString) (C : Int) (hC : 0 ≤ C)
    (h : shapeLabel L C = some q) : shapeLabel q C = some (TrimRight q (str " ")) := by
  rw [shapeLabel_some L C hC, Option.some.injEq] at h
  have hlen : q.length ≤ C.toNat := by rw [← h]; simp
  have hhead : ∀ c, q.head? = some c → (str " ").contains c = false := by
    intro c hc
    rw [← h] at hc
    exact TrimLeft_head L (str " ") c (TrimRight_head _ _ c (take_head _ _ c hc))
  rw [shapeLabel_some q C hC, Trim, TrimLeft_of_head q _ hhead,
    List.take_of_length_le (le_trans (TrimRight_length q _) hlen)]

/-- The table handler without the option `row_limit`: it asks the provider with the row
limit 5 and hands the smaller of 5 and the number of labels to `formatTable`. -/
theorem table_default_rowLimit (env : Env) (widget : Widget) (firstHeader metric0 : GoString)
    (global : Bool) (sd ed : Time) (C : Int) (headers dim : List GoString)
    (val : List (List GoString))
    (hrow : widget.Options.has optionRowLimit = false)
    (hglobal : globalOption widget.Options = (global, none))
    (hmetric : (listOption widget.Options optionMetrics
      [str "sessions", str "page_views", str "entrances", str "unique_page_views"])[0]? =
        some metric0)
    (htime : ExtractTimeRange env.tt env.now widget.Options = (sd, ed, none))
    (hchar : limitOption widget.Options optionCharLimit 20 = (C, none))
    (hfetch : env.Table
      { ViewID := env.viewID, StartDate := env.Format sd, EndDate := env.Format ed,
        Global := global,
        Metrics := listOption widget.Options optionMetrics
          [str "sessions", str "page_views", str "entrances", str "unique_page_views"],
        Dimensions :=
          [if widget.Options.has optionDimension ∧
              (widget.Options.get optionDimension).length > 0 then
            widget.Options.get optionDimension
          else str "page_path"],
        Filters := listOption widget.Options optionFilters [],
        Orders := listOption widget.Options optionOrder [metric0 ++ str " desc"],
        RowLimit := 5 } firstHeader = (headers, dim, val, none)) :
    ∀ t, formatTable (min 5 (dim.length : Int)) dim val C headers = some t →
      gaWidget.table env widget firstHeader =
        ⟨1, some (.ok (.table t
          (if widget.Options.has optionTitle then widget.Options.get optionTitle
           else firstHeader ++ str " from " ++ env.Format sd ++ str " to " ++ env.Format ed)
          widget.Options))⟩ := by
  intro t ht
  have hlim : limitOption widget.Options optionRowLimit 5 = (5, none) := by
    simp [limitOption, hrow]
  have hmin : (if (5 : Int) > (dim.length : Int) then (dim.length : Int) else 5) =
      min 5 (dim.length : Int) := by
    split_ifs with h
    · exact (min_eq_right (le_of_lt h)).symm
    · exact (min_eq_left (not_lt.mp h)).symm
  simp only [gaWidget.table, hglobal, hmetric, htime, hlim, hfetch, hchar, hmin, ht]

/-- C6, amended: for every row limit R >= 0, every character limit C >= 0, every header row
and every provider result with n value rows and at least min(R, n) labels, `formatTable`
returns exactly 1 + min(R, n) rows, the header row first. The row limit is 5 when the option
`row_limit` is absent: the table handler then asks the provider with the row limit 5 and, for
every C >= 0 and every provider result with m labels and n value rows, returns a table of
exactly 1 + min(5, m, n) rows, the header row first. -/
theorem formatTable_row_count (R C : Int) (hR : 0 ≤ R) (hC : 0 ≤ C) (headers : List GoString)
    (dim : List GoString) (val : List (List GoString))
    (hdim : min R (val.length : Int) ≤ (dim.length : Int)) :
    (∃ t, formatTable R dim val C headers = some t ∧
      (t.length : Int) = 1 + min R (val.length : Int) ∧ t.head? = some headers) ∧
    ∀ (env : Env) (widget : Widget) (firstHeader metric0 : GoString) (global : Bool)
      (sd ed : Time) (labels : List GoString),
      widget.Options.has optionRowLimit = false →
      globalOption widget.Options = (global, none) →
      (listOption widget.Options optionMetrics
        [str "sessions", str "page_views", str "entrances", str "unique_page_views"])[0]? =
          some metric0 →
      ExtractTimeRange env.tt env.now widget.Options = (sd, ed, none) →
      limitOption widget.Options optionCharLimit 20 = (C, none) →
      env.Table
        { ViewID := env.viewID, StartDate := env.Format sd, EndDate := env.Format ed,
          Global := global,
          Metrics := listOption widget.Options optionMetrics
            [str "sessions", str "page_views", str "entrances", str "unique_page_views"],
          Dimensions :=
            [if widget.Options.has optionDimension ∧
                (widget.Options.get optionDimension).length > 0 then
              widget.Options.get optionDimension
            else str "page_path"],
          Filters := listOption widget.Options optionFilters [],
          Orders := listOption widget.Options optionOrder [metric0 ++ str " desc"],
          RowLimit := 5 } firstHeader = (headers, labels, val, none) →
      ∃ t title, gaWidget.table env widget firstHeader =
          ⟨1, some (.ok (.table t title widget.Options))⟩ ∧
        (t.length : Int) = 1 + min (min 5 (labels.length : Int)) (val.length : Int) ∧
        t.head? = some headers := by
  have hcount : ∀ (R : Int) (dim : List GoString), 0 ≤ R →
      min R (val.length : Int) ≤ (dim.length : Int) →
      ∃ t, formatTable R dim val C headers = some t ∧
        (t.length : Int) = 1 + min R (val.length : Int) ∧ t.head? = some headers := by
    intro R dim hR hdim
    obtain ⟨t, ht, hlen⟩ := formatTableLoop_length R dim C hC val 0 [headers] (by simpa using hR)
      (by simpa using hdim)
    refine ⟨t, ht, by simpa using hlen, ?_⟩
    obtain ⟨rows, hrows, -, -⟩ := formatTableLoop_rows R dim C val 0 [headers] t ht
    rw [hrows]; rfl
  refine ⟨hcount R dim hR hdim, ?_⟩
  intro env widget firstHeader metric0 global sd ed labels hrow hglobal hmetric htime hchar hfetch
  obtain ⟨t, ht, hlen, hhead⟩ := hcount (min 5 (labels.length : Int)) labels
    (le_min (by decide) (by exact_mod_cast Nat.zero_le _))
    (le_trans (min_le_left _ _) (min_le_right _ _))
  exact ⟨t, _, table_default_rowLimit env widget firstHeader metric0 global sd ed C headers
    labels val hrow hglobal hmetric htime hchar hfetch t ht, hlen, hhead⟩

/-- C6, instance: row limit 3 and a result of five rows give the header and three data rows;
without `row_limit` the table handler returns the header and five data rows. -/
theorem formatTable_row_count_witness :
    (0 : Int) ≤ 3 ∧ (0 : Int) ≤ 20 ∧
    (∃ t, formatTable 3 [str "/a", str "/b", str "/c", str "/d", str "/e"]
        [[str "1"], [str "2"], [str "3"], [str "4"], [str "5"]] 20 [str "Page", str "Sessions"] =
          some t ∧
      (t.length : Int) = 1 + min 3 ((5 : Nat) : Int) ∧ t.head? = some [str "Page", str "Sessions"]) ∧
    (∃ t title, gaWidget.table sampleEnv ⟨gaTablePages, []⟩ (str "Page") =
        ⟨1, some (.ok (.table t title []))⟩ ∧
      (t.length : Int) = 1 + min (min 5 ((5 : Nat) : Int)) ((5 : Nat) : Int) ∧
      t.head? = some [str "Page", str "Sessions"]) :=
  ⟨by decide, by decide,
    (formatTable_row_count 3 20 (by decide) (by decide) [str "Page", str "Sessions"]
      [str "/a", str "/b", str "/c", str "/d", str "/e"]
      [[str "1"], [str "2"], [str "3"], [str "4"], [str "5"]] (by decide)).1,
    (formatTable_row_count 3 20 (by decide) (by decide) [str "Page", str "Sessions"]
      [str "/a", str "/b", str "/c", str "/d", str "/e"]
      [[str "1"], [str "2"], [str "3"], [str "4"], [str "5"]] (by decide)).2
      sampleEnv ⟨gaTablePages, []⟩ (str "Page") (str "sessions") false (Date 2019 1 8 0)
      (Date 2019 1 15 0) [str "/a", str "/b", str "/c", str "/d", str "/e"]
      (by decide) (by decide) (by decide) (by decide) (by decide) rfl⟩

/-- C6, counterexample: with row limit 3, five value rows and five labels, but the character
limit -1 (which `table` accepts from the option `char_limit`), `formatTable` panics in
`p[:charLimit]` and returns no table. -/
theorem formatTable_negative_charLimit :
    formatTable 3 [str "/a", str "/b", str "/c", str "/d", str "/e"]
        [[str "1"], [str "2"], [str "3"], [str "4"], [str "5"]] (-1) [str "Page", str "Sessions"] =
      none ∧
    gaWidget.table sampleEnv ⟨gaTable, [(optionRowLimit, str "3"), (optionCharLimit, str "-1")]⟩
        (str "Page") = ⟨1, none⟩ := by
  decide

/-- C7, amended: for every character limit C >= 0 and every label L the label cell that
`formatTable` emits is L without its leading and trailing space bytes (U+0020 only), cut to
its first C bytes, with nothing appended. A label that neither starts nor ends with a space
and is at most C bytes long is emitted unchanged; shaping a shaped label again removes only
the trailing spaces the cut exposed, and nothing when there are none. -/
theorem shapeLabel_spec (C : Int) (hC : 0 ≤ C) (L : GoString) (v headers : List GoString) :
    formatTable 1 [L] [v] C headers =
      some [headers, (Trim L (str " ")).take C.toNat :: v] ∧
    shapeLabel L C = some ((Trim L (str " ")).take C.toNat) ∧
    (L.head? ≠ some 32 → L.getLast? ≠ some 32 → (L.length : Int) ≤ C → shapeLabel L C = some L) ∧
    (∀ q, shapeLabel L C = some q → shapeLabel q C = some (TrimRight q (str " "))) ∧
    (∀ q, shapeLabel L C = some q → q.getLast? ≠ some 32 → shapeLabel q C = some q) := by
  have hcut : ∀ c : Nat, c ≠ 32 → (str " ").contains c = false := by
    intro c hc
    have : str " " = [32] := by decide
    rw [this]
    simp [hc]
  have hsome := shapeLabel_some L C hC
  refine ⟨?_, hsome, ?_, ?_, ?_⟩
  · simp [formatTable, formatTableLoop, hsome]
  · intro h1 h2 h3
    rw [hsome, Trim, TrimLeft_of_head L _ (fun c hc => hcut c (fun h => h1 (h ▸ hc))),
      TrimRight_of_last L _ (fun c hc => hcut c (fun h => h2 (h ▸ hc))),
      List.take_of_length_le (by omega)]
  · intro q hq
    exact shapeLabel_again L q C hC hq
  · intro q hq h2
    rw [shapeLabel_again L q C hC hq,
      TrimRight_of_last q _ (fun c hc => hcut c (fun h => h2 (h ▸ hc)))]

/-- C7, instance: the label `  /blog/post ` with the character limit 4 is emitted as `/blo`. -/
theorem shapeLabel_spec_witness :
    (0 : Int) ≤ 4 ∧
    formatTable 1 [str "  /blog/post "] [[str "7"]] 4 [str "Page", str "Sessions"] =
      some [[str "Page", str "Sessions"], [str "/blo", str "7"]] := by
  refine ⟨by decide, ?_⟩
  rw [(shapeLabel_spec 4 (by decide) (str "  /blog/post ") [str "7"] [str "Page", str "Sessions"]).1]
  decide

/-- C7, counterexample: a leading tab is white space and is not removed; the cut counts bytes
and splits the two-byte character `é`; and shaping the shaped label `"ab "` again changes it
to `"ab"`. -/
theorem shapeLabel_not_labelSpec :
    (shapeLabel (bytes ['\t', 'a', 'b']) 20 = some (bytes ['\t', 'a', 'b']) ∧
      bytes (labelSpec 20 ['\t', 'a', 'b']) = bytes ['a', 'b']) ∧
    (shapeLabel (bytes ['é', 't', 'é']) 1 = some [0xC3] ∧
      bytes (labelSpec 1 ['é', 't', 'é']) = [0xC3, 0xA9]) ∧
    (shapeLabel (str "ab  cd") 3 = some (str "ab ") ∧
      shapeLabel (str "ab ") 3 = some (str "ab")) := by
  decide

/-- C8: whenever `formatTable` returns, row 0 of the output is the header row, and for every
`k` below the number of emitted data rows, row `k + 1` is the label cell shaped from `dim[k]`
followed by the cells of `val[k]` in their order, of length `1 + len(val[k])`; so the rows
keep the provider order and none is merged or skipped. -/
theorem formatTable_rows (R C : Int) (dim headers : List GoString) (val t : List (List GoString))
    (h : formatTable R dim val C headers = some t) :
    t[0]? = some headers ∧ t.length ≤ 1 + val.length ∧
    ∀ k, k + 1 < t.length →
      ∃ label v cell, dim[k]? = some label ∧ val[k]? = some v ∧
        shapeLabel label C = some cell ∧ t[k + 1]? = some (cell :: v) ∧
        (cell :: v).length = 1 + v.length := by
  obtain ⟨rows, ht, hlen, hrows⟩ := formatTableLoop_rows R dim C val 0 [headers] t h
  subst ht
  refine ⟨by simp, by simp; omega, ?_⟩
  intro k hk
  obtain ⟨label, v, cell, h1, h2, h3, h4⟩ := hrows k (by simpa using hk)
  refine ⟨label, v, cell, by simpa using h1, h2, h3, ?_, by simp; omega⟩
  simpa using h4

/-- C8, instance: a table of two data rows out of three value rows, header first. -/
theorem formatTable_rows_witness :
    formatTable 2 [str " /a ", str "/b", str "/c"] [[str "1", str "2"], [str "3", str "4"],
        [str "5", str "6"]] 20 [str "Page", str "Sessions", str "Views"] =
      some [[str "Page", str "Sessions", str "Views"], [str "/a", str "1", str "2"],
        [str "/b", str "3", str "4"]] ∧
    ([[str "Page", str "Sessions", str "Views"], [str "/a", str "1", str "2"],
        [str "/b", str "3", str "4"]] : List (List GoString))[0]? =
      some [str "Page", str "Sessions", str "Views"] :=
  ⟨by decide,
    (formatTable_rows 2 20 [str " /a ", str "/b", str "/c"]
      [str "Page", str "Sessions", str "Views"]
      [[str "1", str "2"], [str "3", str "4"], [str "5", str "6"]] _ (by decide)).1⟩

/-! ## Widget handlers and dispatch -/

theorem Options.has_of_lookup (m : Options) (k v : GoString) (h : m.lookup k = some v) :
    m.has k = true := by
  simp [Options.has, h]

theorem Options.get_of_lookup (m : Options) (k v : GoString) (h : m.lookup k = some v) :
    m.get k = v := by
  simp [Options.get, h]

theorem Options.lookup_set_ne (m : Options) (k k' v : GoString) (h : k ≠ k') :
    (m.set k' v).lookup k = m.lookup k := by
  have hb : (k == k') = false := by simpa using h
  simp [Options.set, List.lookup, hb]

theorem Options.lookup_set_self (m : Options) (k v : GoString) :
    (m.set k v).lookup k = some v := by
  simp [Options.set, List.lookup]

/-- The shared bar routine captures the `title` option when there is one. -/
theorem barMetric_title (env : Env) (w : Widget) (x : Nat) (T : GoString) (act : Action)
    (hT : w.Options.lookup optionTitle = some T)
    (h : (gaWidget.barMetric env w x).result = some (.ok act)) : act.title = T := by
  have hhas := Options.has_of_lookup _ _ _ hT
  have hget := Options.get_of_lookup _ _ _ hT
  unfold gaWidget.barMetric at h
  simp only [hhas, hget, if_true] at h
  repeat' split at h
  all_goals first
    | (simp at h; done)
    | (simp only [Option.some.injEq, Except.ok.injEq] at h
       rw [← h]; rfl)

theorem table_title (env : Env) (w : Widget) (fh : GoString) (T : GoString) (act : Action)
    (hT : w.Options.lookup optionTitle = some T)
    (h : (gaWidget.table env w fh).result = some (.ok act)) : act.title = T := by
  have hhas := Options.has_of_lookup _ _ _ hT
  have hget := Options.get_of_lookup _ _ _ hT
  unfold gaWidget.table at h
  simp only [hhas, hget, if_true] at h
  repeat' split at h
  all_goals first
    | (simp at h; done)
    | (simp only [Option.some.injEq, Except.ok.injEq] at h
       rw [← h]; rfl)

theorem stackedBar_title (env : Env) (w : Widget) (T : GoString) (act : Action)
    (hT : w.Options.lookup optionTitle = some T)
    (h : (gaWidget.stackedBar env w).result = some (.ok act)) : act.title = T := by
  have hhas := Options.has_of_lookup _ _ _ hT
  have hget := Options.get_of_lookup _ _ _ hT
  unfold gaWidget.stackedBar at h
  simp only [hhas, hget, if_true] at h
  repeat' split at h
  all_goals first
    | (simp at h; done)
    | (simp only [Option.some.injEq, Except.ok.injEq] at h
       rw [← h]; rfl)

theorem totalMetric_title (env : Env) (w : Widget) (T : GoString) (act : Action)
    (hT : w.Options.lookup optionTitle = some T)
    (h : (gaWidget.totalMetric env w).result = some (.ok act)) : act.title = T := by
  have hhas := Options.has_of_lookup _ _ _ hT
  have hget := Options.get_of_lookup _ _ _ hT
  unfold gaWidget.totalMetric at h
  simp only [hhas, hget, if_true] at h
  repeat' split at h
  all_goals first
    | (simp at h; done)
    | (simp only [Option.some.injEq, Except.ok.injEq] at h
       rw [← h]; rfl)

theorem realTimeUser_title (env : Env) (w : Widget) (T : GoString) (act : Action)
    (hT : w.Options.lookup optionTitle = some T)
    (h : (gaWidget.realTimeUser env w).result = some (.ok act)) : act.title = T := by
  have hhas := Options.has_of_lookup _ _ _ hT
  have hget := Options.get_of_lookup _ _ _ hT
  unfold gaWidget.realTimeUser at h
  simp only [hhas, hget, if_true] at h
  repeat' split at h
  all_goals first
    | (simp at h; done)
    | (simp only [Option.some.injEq, Except.ok.injEq] at h
       rw [← h]; rfl)

theorem boxUptime_title (env : Env) (w : Widget) (T : GoString) (act : Action)
    (hT : w.Options.lookup optionTitle = some T)
    (h : (remoteHostWidget.boxUptime env w).result = some (.ok act)) : act.title = T := by
  have hhas := Options.has_of_lookup _ _ _ hT
  have hget := Options.get_of_lookup _ _ _ hT
  unfold remoteHostWidget.boxUptime at h
  simp only [hhas, hget, if_true] at h
  repeat' split at h
  all_goals first
    | (simp at h; done)
    | (simp only [Option.some.injEq, Except.ok.injEq] at h
       rw [← h]; rfl)

theorem barGetMemory_title (env : Env) (w : Widget) (T : GoString) (act : Action)
    (hT : w.Options.lookup optionTitle = some T)
    (h : (remoteHostWidget.barGetMemory env w).result = some (.ok act)) : act.title = T := by
  have hhas := Options.has_of_lookup _ _ _ hT
  have hget := Options.get_of_lookup _ _ _ hT
  unfold remoteHostWidget.barGetMemory at h
  simp only [hhas, hget, if_true] at h
  repeat' split at h
  all_goals first
    | (simp at h; done)
    | (simp only [Option.some.injEq, Except.ok.injEq] at h
       rw [← h]; rfl)


theorem title_ne_metric : optionTitle ≠ optionMetric := by decide
theorem title_ne_dimensions : optionTitle ≠ optionDimensions := by decide
theorem title_ne_dimension : optionTitle ≠ optionDimension := by decide

theorem users_title (env : Env) (w : Widget) (T : GoString) (act : Action)
    (hT : w.Options.lookup optionTitle = some T)
    (h : (gaWidget.users env w).result = some (.ok act)) : act.title = T := by
  unfold gaWidget.users at h
  exact barMetric_title env _ _ T act
    (by simp only [Options.lookup_set_ne _ _ _ _ title_ne_metric, hT]) h

theorem barPages_title (env : Env) (w : Widget) (T : GoString) (act : Action)
    (hT : w.Options.lookup optionTitle = some T)
    (h : (gaWidget.barPages env w).result = some (.ok act)) : act.title = T := by
  have hl : ((w.Options.set optionDimensions (str "page_path")).set optionMetric
      (str "page_views")).lookup optionTitle = some T := by
    simp only [Options.lookup_set_ne _ _ _ _ title_ne_metric,
      Options.lookup_set_ne _ _ _ _ title_ne_dimensions, hT]
  have hhas := Options.has_of_lookup _ _ _ hl
  unfold gaWidget.barPages at h
  simp only [hhas, not_true_eq_false, if_false] at h
  split at h
  · simp at h
  · exact barMetric_title env
      ⟨w.Name, (w.Options.set optionDimensions (str "page_path")).set optionMetric
        (str "page_views")⟩ _ T act hl h

theorem barCountries_title (env : Env) (w : Widget) (T : GoString) (act : Action)
    (hT : w.Options.lookup optionTitle = some T)
    (h : (gaWidget.barCountries env w).result = some (.ok act)) : act.title = T := by
  have hl : ((w.Options.set optionDimensions (str "country")).set optionMetric
      (str "sessions")).lookup optionTitle = some T := by
    simp only [Options.lookup_set_ne _ _ _ _ title_ne_metric,
      Options.lookup_set_ne _ _ _ _ title_ne_dimensions, hT]
  have hhas := Options.has_of_lookup _ _ _ hl
  unfold gaWidget.barCountries at h
  simp only [hhas, not_true_eq_false, if_false] at h
  exact barMetric_title env
    ⟨w.Name, (w.Options.set optionDimensions (str "country")).set optionMetric
      (str "sessions")⟩ _ T act hl h

theorem barBounces_title (env : Env) (w : Widget) (T : GoString) (act : Action)
    (hT : w.Options.lookup optionTitle = some T)
    (h : (gaWidget.barBounces env w).result = some (.ok act)) :
    act.title = T ++ str " Bounces " := by
  have hl : (w.Options.set optionMetric (str "bounces")).lookup optionTitle = some T := by
    simp only [Options.lookup_set_ne _ _ _ _ title_ne_metric, hT]
  have hget := Options.get_of_lookup _ _ _ hl
  unfold gaWidget.barBounces at h
  simp only [hget] at h
  exact barMetric_title env _ _ _ act (Options.lookup_set_self _ _ _) h

theorem barReturning_title (env : Env) (w : Widget) (act : Action)
    (h : (gaWidget.barReturning env w).result = some (.ok act)) :
    act.title = str " Returning users " := by
  unfold gaWidget.barReturning at h
  exact barMetric_title env _ _ _ act (Options.lookup_set_self _ _ _) h

theorem trafficSource_title (env : Env) (w : Widget) (T : GoString) (act : Action)
    (hT : w.Options.lookup optionTitle = some T)
    (h : (gaWidget.trafficSource env w).result = some (.ok act)) : act.title = T := by
  unfold gaWidget.trafficSource at h
  exact table_title env _ _ T act
    (by simp only [Options.lookup_set_ne _ _ _ _ title_ne_dimension, hT]) h

theorem stackedBarNewReturningUsers_title (env : Env) (w : Widget) (T : GoString) (act : Action)
    (hT : w.Options.lookup optionTitle = some T)
    (h : (gaWidget.stackedBarNewReturningUsers env w).result = some (.ok act)) :
    act.title = T := by
  unfold gaWidget.stackedBarNewReturningUsers at h
  exact stackedBar_title env _ T act
    (by simp only [Options.lookup_set_ne _ _ _ _ title_ne_dimensions, hT]) h

theorem stackedBarDevices_title (env : Env) (w : Widget) (T : GoString) (act : Action)
    (hT : w.Options.lookup optionTitle = some T)
    (h : (gaWidget.stackedBarDevices env w).result = some (.ok act)) : act.title = T := by
  unfold gaWidget.stackedBarDevices at h
  exact stackedBar_title env _ T act
    (by simp only [Options.lookup_set_ne _ _ _ _ title_ne_dimensions, hT]) h

/-- C9, amended: for every widget kind of the Google Analytics and remote-host dispatchers
other than `ga.bar_returning`, and every options map with a `title` entry of value T, the
title captured by the returned deferred render action is T, whatever title the handler would
compute otherwise (`ga.bar_pages` and `ga.bar_countries` included), except that
`ga.bar_bounces` captures T followed by `" Bounces "`. -/
theorem CreateWidgets_title (env : Env) (widget : Widget) (T : GoString) (act : Action)
    (hT : widget.Options.lookup optionTitle = some T) (hname : widget.Name ≠ gaBarReturning) :
    ((gaWidget.CreateWidgets env widget).result = some (.ok act) →
      act.title = if widget.Name = gaBarBounces then T ++ str " Bounces " else T) ∧
    ((remoteHostWidget.CreateWidgets env widget).result = some (.ok act) → act.title = T) := by
  constructor
  · intro h
    unfold gaWidget.CreateWidgets at h
    by_cases h1 : widget.Name = gaBoxRealtime
    · rw [if_pos h1] at h
      rw [if_neg (by rw [h1]; decide)]
      exact realTimeUser_title env widget T act hT h
    rw [if_neg h1] at h
    by_cases h2 : widget.Name = gaBoxTotal
    · rw [if_pos h2] at h
      rw [if_neg (by rw [h2]; decide)]
      exact totalMetric_title env widget T act hT h
    rw [if_neg h2] at h
    by_cases h3 : widget.Name = gaBarSessions
    · rw [if_pos h3] at h
      rw [if_neg (by rw [h3]; decide)]
      exact barMetric_title env widget _ T act hT h
    rw [if_neg h3] at h
    by_cases h4 : widget.Name = gaBarUsers
    · rw [if_pos h4] at h
      rw [if_neg (by rw [h4]; decide)]
      exact users_title env widget T act hT h
    rw [if_neg h4] at h
    by_cases h5 : widget.Name = gaBar
    · rw [if_pos h5] at h
      rw [if_neg (by rw [h5]; decide)]
      exact barMetric_title env widget _ T act hT h
    rw [if_neg h5] at h
    by_cases h6 : widget.Name = gaTablePages
    · rw [if_pos h6] at h
      rw [if_neg (by rw [h6]; decide)]
      exact table_title env widget _ T act hT h
    rw [if_neg h6] at h
    by_cases h7 : widget.Name = gaTableTrafficSources
    · rw [if_pos h7] at h
      rw [if_neg (by rw [h7]; decide)]
      exact trafficSource_title env widget T act hT h
    rw [if_neg h7] at h
    by_cases h8 : widget.Name = gaBarNewReturning
    · rw [if_pos h8] at h
      rw [if_neg (by rw [h8]; decide)]
      exact stackedBarNewReturningUsers_title env widget T act hT h
    rw [if_neg h8] at h
    by_cases h9 : widget.Name = gaBarDevices
    · rw [if_pos h9] at h
      rw [if_neg (by rw [h9]; decide)]
      exact stackedBarDevices_title env widget T act hT h
    rw [if_neg h9] at h
    by_cases h10 : widget.Name = gaBarReturning
    · exact absurd h10 hname
    rw [if_neg h10] at h
    by_cases h11 : widget.Name = gaBarPages
    · rw [if_pos h11] at h
      rw [if_neg (by rw [h11]; decide)]
      exact barPages_title env widget T act hT h
    rw [if_neg h11] at h
    by_cases h12 : widget.Name = gaBarCountries
    · rw [if_pos h12] at h
      rw [if_neg (by rw [h12]; decide)]
      exact barCountries_title env widget T act hT h
    rw [if_neg h12] at h
    by_cases h13 : widget.Name = gaBarBounces
    · rw [if_pos h13] at h ⊢
      exact barBounces_title env widget T act hT h
    rw [if_neg h13] at h
    by_cases h14 : widget.Name = gaTable
    · rw [if_pos h14] at h
      rw [if_neg h13]
      exact table_title env widget _ T act hT h
    rw [if_neg h14] at h
    simp at h
  · intro h
    unfold remoteHostWidget.CreateWidgets at h
    by_cases h1 : widget.Name = rhUptime
    · rw [if_pos h1] at h
      exact boxUptime_title env widget T act hT h
    rw [if_neg h1] at h
    by_cases h2 : widget.Name = rhMemory
    · rw [if_pos h2] at h
      exact barGetMemory_title env widget T act hT h
    rw [if_neg h2] at h
    simp at h

/-- C9, instance: `ga.bar_pages` with the title `Visits` captures `Visits`, not the filter. -/
theorem CreateWidgets_title_witness :
    List.lookup optionTitle [(optionTitle, str "Visits"), (optionFilters, str "/home/")] =
      some (str "Visits") ∧
    gaBarPages ≠ gaBarReturning ∧
    (gaWidget.CreateWidgets sampleEnv
        ⟨gaBarPages, [(optionTitle, str "Visits"), (optionFilters, str "/home/")]⟩).result =
      some (.ok (.barChart [3, 4] [str "01-14", str "01-15"] (str "Visits")
        [(optionMetric, str "page_views"), (optionDimensions, str "page_path"),
          (optionTitle, str "Visits"), (optionFilters, str "/home/")])) ∧
    (Action.barChart [3, 4] [str "01-14", str "01-15"] (str "Visits")
        [(optionMetric, str "page_views"), (optionDimensions, str "page_path"),
          (optionTitle, str "Visits"), (optionFilters, str "/home/")]).title =
      (if gaBarPages = gaBarBounces then str "Visits" ++ str " Bounces " else str "Visits") :=
  ⟨by decide, by decide, by decide,
    (CreateWidgets_title sampleEnv
      ⟨gaBarPages, [(optionTitle, str "Visits"), (optionFilters, str "/home/")]⟩ (str "Visits") _
      (by decide) (by decide)).1 (by decide)⟩

/-- C9, counterexample: with the option `title` set to `Visits`, `ga.bar_bounces` captures the
title `Visits Bounces ` and `ga.bar_returning` captures ` Returning users `. -/
theorem CreateWidgets_title_not_kept :
    (gaWidget.CreateWidgets sampleEnv ⟨gaBarBounces, [(optionTitle, str "Visits")]⟩).result =
      some (.ok (.barChart [3, 4] [str "01-14", str "01-15"] (str "Visits Bounces ")
        [(optionTitle, str "Visits Bounces "), (optionMetric, str "bounces"),
          (optionTitle, str "Visits")])) ∧
    (gaWidget.CreateWidgets sampleEnv ⟨gaBarReturning, [(optionTitle, str "Visits")]⟩).result =
      some (.ok (.barChart [3, 4] [str "01-14", str "01-15"] (str " Returning users ")
        [(optionTitle, str " Returning users "), (optionDimensions, str "user_type"),
          (optionMetric, str "users"), (optionTitle, str "Visits")])) := by
  decide

theorem title_ne_filters : optionTitle ≠ optionFilters := by decide
theorem filters_ne_metric : optionFilters ≠ optionMetric := by decide
theorem filters_ne_dimensions : optionFilters ≠ optionDimensions := by decide

/-- C10, amended: `ga.bar_pages` requires the option `filters` to be present. When it is
absent `barPages` fails with the missing-filter error and performs no provider fetch; when it
is present, empty or not, and there is no `title`, `barPages` hands the filters value to the
shared bar routine as the title, and that is the title of the action returned. -/
theorem barPages_filters (env : Env) (widget : Widget) :
    (widget.Options.lookup optionFilters = none →
      gaWidget.barPages env widget =
        ⟨0, some (.error (.new (str
          "The widget ga.bar_pages require a filter (relative url of your page, i.e '/my-super-page/')")))⟩) ∧
    (∀ F, widget.Options.lookup optionFilters = some F →
      widget.Options.lookup optionTitle = none →
      gaWidget.barPages env widget =
        gaWidget.barMetric env
          ⟨widget.Name, ((widget.Options.set optionDimensions (str "page_path")).set optionMetric
            (str "page_views")).set optionTitle F⟩ env.XHeaderTime ∧
      ∀ act, (gaWidget.barPages env widget).result = some (.ok act) → act.title = F) := by
  have hlf : ((widget.Options.set optionDimensions (str "page_path")).set optionMetric
      (str "page_views")).lookup optionFilters = widget.Options.lookup optionFilters := by
    simp only [Options.lookup_set_ne _ _ _ _ filters_ne_metric,
      Options.lookup_set_ne _ _ _ _ filters_ne_dimensions]
  have hlt : ((widget.Options.set optionDimensions (str "page_path")).set optionMetric
      (str "page_views")).lookup optionTitle = widget.Options.lookup optionTitle := by
    simp only [Options.lookup_set_ne _ _ _ _ title_ne_metric,
      Options.lookup_set_ne _ _ _ _ title_ne_dimensions]
  constructor
  · intro h
    have hhas : ((widget.Options.set optionDimensions (str "page_path")).set optionMetric
        (str "page_views")).has optionFilters = false := by
      simp only [Options.has, hlf, h, Option.isSome_none]
    simp only [gaWidget.barPages, hhas, Bool.false_eq_true, not_false_eq_true, if_true]
  · intro F hF hTt
    have hhas : ((widget.Options.set optionDimensions (str "page_path")).set optionMetric
        (str "page_views")).has optionFilters = true :=
      Options.has_of_lookup _ _ _ (hlf.trans hF)
    have hget := Options.get_of_lookup _ _ _ (hlf.trans hF)
    have hnot : ((widget.Options.set optionDimensions (str "page_path")).set optionMetric
        (str "page_views")).has optionTitle = false := by
      simp only [Options.has, hlt, hTt, Option.isSome_none]
    have heq : gaWidget.barPages env widget =
        gaWidget.barMetric env
          ⟨widget.Name, ((widget.Options.set optionDimensions (str "page_path")).set optionMetric
            (str "page_views")).set optionTitle F⟩ env.XHeaderTime := by
      simp only [gaWidget.barPages, hhas, hnot, hget, not_true_eq_false, Bool.false_eq_true,
        not_false_eq_true, if_true, if_false]
    refine ⟨heq, ?_⟩
    intro act hact
    rw [heq] at hact
    exact barMetric_title env _ _ F act (Options.lookup_set_self _ _ _) hact

/-- C10, instance: the filter `/home/` without a title gives the title `/home/`. -/
theorem barPages_filters_witness :
    List.lookup optionFilters [(optionFilters, str "/home/")] = some (str "/home/") ∧
    List.lookup optionTitle [(optionFilters, str "/home/")] = none ∧
    (gaWidget.barPages sampleEnv ⟨gaBarPages, [(optionFilters, str "/home/")]⟩).result =
      some (.ok (.barChart [3, 4] [str "01-14", str "01-15"] (str "/home/")
        [(optionTitle, str "/home/"), (optionMetric, str "page_views"),
          (optionDimensions, str "page_path"), (optionFilters, str "/home/")])) ∧
    (Action.barChart [3, 4] [str "01-14", str "01-15"] (str "/home/")
        [(optionTitle, str "/home/"), (optionMetric, str "page_views"),
          (optionDimensions, str "page_path"), (optionFilters, str "/home/")]).title =
      str "/home/" :=
  ⟨by decide, by decide, by decide,
    ((barPages_filters sampleEnv ⟨gaBarPages, [(optionFilters, str "/home/")]⟩).2 (str "/home/")
      (by decide) (by decide)).2 _ (by decide)⟩

/-- C10, counterexample: with `filters` present and empty, `barPages` does not fail: it
performs the provider fetch and returns an action whose title is the empty string. -/
theorem barPages_empty_filters :
    gaWidget.barPages sampleEnv ⟨gaBarPages, [(optionFilters, str "")]⟩ =
      ⟨1, some (.ok (.barChart [3, 4] [str "01-14", str "01-15"] (str "")
        [(optionTitle, str ""), (optionMetric, str "page_views"),
          (optionDimensions, str "page_path"), (optionFilters, str "")]))⟩ := by
  decide

/-! ## Uptime text -/

/-- The guard `dur.Hours() > 24.0` holds exactly for the durations above 24 hours. -/
theorem Hours_gt_24 (d : Int) (h : 0 ≤ d) : Duration.Hours d > 24 ↔ d > 24 * Hour := by
  have hH : (0 : Int) ≤ Hour := by decide
  have hdiv : d.tdiv Hour = d / Hour := Int.tdiv_eq_ediv h hH
  have hmod : d.tmod Hour = d % Hour := Int.tmod_eq_emod h hH
  have hsplit : Hour * (d / Hour) + d % Hour = d := Int.ediv_add_emod d Hour
  have hpos : (0 : ℚ) < 60 * 60 * 1000000000 := by norm_num
  have hcast : ((Hour : Int) : ℚ) = 60 * 60 * 1000000000 := by
    simp only [Hour]; norm_num
  unfold Duration.Hours
  rw [hdiv, hmod, gt_iff_lt, gt_iff_lt, ← sub_pos]
  have key : ((d / Hour : Int) : ℚ) + ((d % Hour : Int) : ℚ) / (60 * 60 * 1000000000) - 24 =
      (((d - 24 * Hour : Int)) : ℚ) / (60 * 60 * 1000000000) := by
    have hd : ((d : Int) : ℚ) = (Hour : ℚ) * ((d / Hour : Int) : ℚ) + ((d % Hour : Int) : ℚ) := by
      exact_mod_cast hsplit.symm
    push_cast
    rw [hd, hcast]
    field_simp
    ring
  rw [key, div_pos_iff_of_pos_right hpos]
  constructor
  · intro h1
    have : (0 : Int) < d - 24 * Hour := by exact_mod_cast h1
    omega
  · intro h1
    have : (0 : Int) < d - 24 * Hour := by omega
    exact_mod_cast this

/-- Number of rounds the day loop makes on a duration. -/
theorem daysLoop_eq (fuel : Nat) : ∀ (dur days : Int), 0 ≤ dur →
    dur ≤ ((fuel : Int) + 1) * (24 * Hour) →
    daysLoop fuel dur days =
      some (dur - (if dur ≤ 24 * Hour then 0 else (dur - 1) / (24 * Hour)) * (24 * Hour),
        days + (if dur ≤ 24 * Hour then 0 else (dur - 1) / (24 * Hour))) := by
  have hD : (24 : Int) * Hour = 86400000000000 := by decide
  rw [hD]
  induction fuel with
  | zero =>
    intro dur days h0 hle
    have hle' : dur ≤ 86400000000000 := by omega
    have hng : ¬ Duration.Hours dur > 24 := by
      rw [Hours_gt_24 dur h0, hD]; omega
    simp only [daysLoop, hng, if_false, hle', if_true, zero_mul, sub_zero, add_zero]
  | succ fuel ih =>
    intro dur days h0 hle
    by_cases hg : dur > 86400000000000
    · have hgt : Duration.Hours dur > 24 := (Hours_gt_24 dur h0).2 (by rw [hD]; exact hg)
      have hnle : ¬ dur ≤ 86400000000000 := by omega
      rw [daysLoop, if_pos hgt, hD, ih (dur - 86400000000000) (days + 1) (by omega) (by
        push_cast at hle ⊢; omega)]
      simp only [hnle, if_false]
      by_cases h1 : dur - 86400000000000 ≤ 86400000000000
      · have hk : (dur - 1) / 86400000000000 = 1 := by omega
        simp only [h1, if_true, hk]
        congr 1
        refine Prod.ext ?_ ?_
        · show dur - 86400000000000 - 0 * 86400000000000 = dur - 1 * 86400000000000
          ring
        · show days + 1 + 0 = days + 1
          ring
      · have hk : (dur - 86400000000000 - 1) / 86400000000000 =
            (dur - 1) / 86400000000000 - 1 := by omega
        simp only [h1, if_false, hk]
        congr 1
        refine Prod.ext ?_ ?_
        · show dur - 86400000000000 - ((dur - 1) / 86400000000000 - 1) * 86400000000000 =
            dur - (dur - 1) / 86400000000000 * 86400000000000
          ring
        · show days + 1 + ((dur - 1) / 86400000000000 - 1) = days + (dur - 1) / 86400000000000
          ring
    · have hng : ¬ Duration.Hours dur > 24 := by rw [Hours_gt_24 dur h0, hD]; exact hg
      have hle' : dur ≤ 86400000000000 := by omega
      simp only [daysLoop, hng, if_false, hle', if_true, zero_mul, sub_zero, add_zero]

/-- C15: for every non-negative duration `d` the two day loops of `formatSeconds` end, within
`d / 24h` rounds, and with more rounds allowed the result is the same. The day count `D`
printed and the duration `r` formatted satisfy `D * 24h + r = d` rounded down to a whole
second, with `0 <= r <= 24h`; the text is `"Dd "` followed by the spaced text of `r` exactly
when the rounded duration is strictly above 24 hours, and the spaced text of `r` alone
otherwise; exactly 24 hours is shown as `24h 0m 0s`. -/
theorem formatSeconds_days (d : Int) (h0 : 0 ≤ d) :
    ∃ D r : Int,
      (∀ fuel : Nat, (d / (24 * Hour)).toNat ≤ fuel →
        formatSecondsState fuel d = some (r, D) ∧
        formatSeconds fuel d =
          some ((if D > 0 then fmtD D ++ str "d " else []) ++
            (Duration.String r).flatMap
              (fun ch => if ch = 104 ∨ ch = 109 then [ch, 32] else [ch]))) ∧
      D * (24 * Hour) + r = d - d % Second ∧ 0 ≤ D ∧ 0 ≤ r ∧ r ≤ 24 * Hour ∧
      (D > 0 ↔ d - d % Second > 24 * Hour) ∧
      formatSeconds 0 (24 * Hour) = some (str "24h 0m 0s") := by
  have hD : (24 : Int) * Hour = 86400000000000 := by decide
  have hS : Second = 1000000000 := rfl
  have hmod : d.tmod Second = d % Second := Int.tmod_eq_emod h0 (by decide)
  obtain ⟨d', hd'⟩ : ∃ d', d' = d - d % Second := ⟨_, rfl⟩
  have hd0 : 0 ≤ d' := by rw [hS] at hd'; omega
  have hdle : d' ≤ d := by rw [hS] at hd'; omega
  obtain ⟨K, hK⟩ : ∃ K, K = (if d' ≤ 24 * Hour then 0 else (d' - 1) / (24 * Hour)) := ⟨_, rfl⟩
  have hK0 : 0 ≤ K ∧ (K > 0 ↔ d' > 24 * Hour) ∧ 0 ≤ d' - K * (24 * Hour) ∧
      d' - K * (24 * Hour) ≤ 24 * Hour := by
    rw [hD] at hK ⊢
    split_ifs at hK with hc
    · subst hK; omega
    · subst hK; omega
  refine ⟨K, d' - K * (24 * Hour), ?_, by rw [← hd']; ring, hK0.1, hK0.2.2.1, hK0.2.2.2,
    by rw [← hd']; exact hK0.2.1, ?_⟩
  · intro fuel hfuel
    have hbound : d' ≤ ((fuel : Int) + 1) * (24 * Hour) := by
      rw [hD] at hfuel ⊢
      have h1 : d / 86400000000000 ≤ (fuel : Int) := by omega
      omega
    have hfirst := daysLoop_eq fuel d' 0 hd0 hbound
    rw [← hK, zero_add] at hfirst
    have hsecond := daysLoop_eq fuel (d' - K * (24 * Hour)) K hK0.2.2.1
      (by rw [hD] at hK0 ⊢; omega)
    rw [if_pos hK0.2.2.2, zero_mul, sub_zero, add_zero] at hsecond
    have hstate : formatSecondsState fuel d = some (d' - K * (24 * Hour), K) := by
      simp only [formatSecondsState, hmod, ← hd', hfirst, hsecond]
    refine ⟨hstate, ?_⟩
    simp only [formatSeconds, hstate, formatSecondsText]
  · have hz : (24 * Hour).tmod Second = 0 := by decide
    have hng : ¬ Duration.Hours (24 * Hour) > 24 := by
      rw [Hours_gt_24 _ (by decide)]; exact lt_irrefl _
    have htext : formatSecondsText (24 * Hour) 0 = str "24h 0m 0s" := by decide
    simp only [formatSeconds, formatSecondsState, hz, sub_zero, daysLoop, hng, if_false, htext]

/-- C15, instance: an uptime of 25 hours, 1 minute, 1.5 seconds is shown as one day and
`1h 1m 1s`; the inequalities of the statement are those of this input. -/
theorem formatSeconds_days_witness :
    (0 : Int) ≤ 90061500000000 ∧
    ∃ D r : Int,
      (∀ fuel : Nat, ((90061500000000 : Int) / (24 * Hour)).toNat ≤ fuel →
        formatSecondsState fuel 90061500000000 = some (r, D) ∧
        formatSeconds fuel 90061500000000 =
          some ((if D > 0 then fmtD D ++ str "d " else []) ++
            (Duration.String r).flatMap
              (fun ch => if ch = 104 ∨ ch = 109 then [ch, 32] else [ch]))) ∧
      D * (24 * Hour) + r = 90061500000000 - 90061500000000 % Second ∧ 0 ≤ D ∧ 0 ≤ r ∧
      r ≤ 24 * Hour ∧ (D > 0 ↔ 90061500000000 - 90061500000000 % Second > 24 * Hour) ∧
      formatSeconds 0 (24 * Hour) = some (str "24h 0m 0s") :=
  ⟨by decide, formatSeconds_days 90061500000000 (by decide)⟩

/-- The text shown for an uptime of 25 hours, 1 minute, 1.5 seconds. -/
theorem formatSeconds_example : formatSeconds 1 90061500000000 = some (str "1d 1h 1m 1s") := by
  have hz : (90061500000000 : Int).tmod Second = 500000000 := by decide
  have h1 : Duration.Hours (90061500000000 - 500000000) > 24 := by
    rw [Hours_gt_24 _ (by decide)]; decide
  have h2 : ¬ Duration.Hours (90061500000000 - 500000000 - 24 * Hour) > 24 := by
    rw [Hours_gt_24 _ (by decide)]; decide
  have htext : formatSecondsText (90061500000000 - 500000000 - 24 * Hour) (0 + 1) =
      str "1d 1h 1m 1s" := by decide
  simp only [formatSeconds, formatSecondsState, hz, daysLoop, h1, h2, if_true, if_false, htext]

/-! ## Stacked-bar shaping -/

/-- The stacked-bar loop on at most as many series as colours remain: the series fill the
slots from `count` on, in the order visited, and the other slots stay as they were. -/
theorem stackedBarLoop_places (env : Env) (colors : List Nat) (hc : colors.length = 5)
    (val : List (GoString × List Int)) :
    ∀ (filled : List (List Int)) (title : GoString),
      filled.length + val.length ≤ 5 →
      ∃ title', stackedBarLoop env colors val filled.length
          (filled ++ List.replicate (8 - filled.length) []) title =
        some (filled ++ val.map Prod.snd ++
          List.replicate (8 - filled.length - val.length) [], title') := by
  induction val with
  | nil =>
    intro filled title _
    exact ⟨title, by simp [stackedBarLoop]⟩
  | cons kv val ih =>
    intro filled title hlen
    obtain ⟨k, v⟩ := kv
    simp only [List.length_cons] at hlen
    have hlt : filled.length < (filled ++ List.replicate (8 - filled.length) []).length := by
      simp; omega
    have hcol : filled.length < colors.length := by omega
    obtain ⟨title', ht⟩ := ih (filled ++ [v])
      ((if filled.length ≠ 0 then title ++ str "/ " else title) ++
        (k ++ str " (" ++ env.colorStr colors[filled.length] ++ str ") "))
      (by simp; omega)
    refine ⟨title', ?_⟩
    rw [stackedBarLoop, if_pos hlt, List.getElem?_eq_getElem hcol]
    have hset : (filled ++ List.replicate (8 - filled.length) ([] : List Int)).set
        filled.length v = (filled ++ [v]) ++ List.replicate (8 - (filled ++ [v]).length) [] := by
      rw [List.set_append_right _ _ (le_refl _), Nat.sub_self]
      have hrep : List.replicate (8 - filled.length) ([] : List Int) =
          [] :: List.replicate (8 - filled.length - 1) [] := by
        rw [← List.replicate_succ]; congr 1; omega
      rw [hrep, List.set_cons_zero, List.length_append, List.length_singleton,
        List.append_assoc, List.singleton_append, Nat.sub_add_eq]
    simp only [hset]
    have hl : (filled ++ [v]).length = filled.length + 1 := by simp
    rw [hl] at ht ⊢
    rw [ht]
    have e2 : 8 - (filled.length + 1) - val.length = 8 - filled.length - (val.length + 1) := by
      omega
    simp only [List.map_cons, List.length_cons, e2, List.append_assoc, List.singleton_append]

/-- The stacked-bar loop panics once a sixth series is reached: the palette has five
entries. -/
theorem stackedBarLoop_panics (env : Env) (colors : List Nat) (hc : colors.length = 5)
    (val : List (GoString × List Int)) :
    ∀ (count : Nat) (data : List (List Int)) (title : GoString),
      count ≤ 5 → 6 ≤ count + val.length →
      stackedBarLoop env colors val count data title = none := by
  induction val with
  | nil => intro count data title h1 h2; simp at h2; omega
  | cons kv val ih =>
    intro count data title h1 h2
    obtain ⟨k, v⟩ := kv
    rw [stackedBarLoop]
    by_cases hlt : count < data.length
    · rw [if_pos hlt]
      by_cases h5 : count = 5
      · have hnone : colors[count]? = none := by
          rw [List.getElem?_eq_none]; omega
        simp only [hnone]
      · have hcol : count < colors.length := by omega
        simp only [List.getElem?_eq_getElem hcol]
        exact ih _ _ _ (by omega) (by simp only [List.length_cons] at h2; omega)
    · rw [if_neg hlt]

theorem stackedBar_colors (env : Env) (options : Options)
    (h1 : options.has optionFirstColor = false) (h2 : options.has optionSecondColor = false)
    (h3 : options.has optionThirdColor = false) (h4 : options.has optionFourthColor = false)
    (h5 : options.has optionFifthColor = false) (widget : Widget) (ho : widget.Options = options)
    (sd ed : Time) (dim : List GoString) (val : List (GoString × List Int))
    (htime : ExtractTimeRange env.tt env.now widget.Options = (sd, ed, none))
    (hfetch : env.StackedBar
        { ViewID := env.viewID, StartDate := env.Format sd, EndDate := env.Format ed,
          TimePeriod :=
            if widget.Options.has optionTimePeriod then
              TrimSpace (widget.Options.get optionTimePeriod)
            else str "day",
          Metrics := [ExtractMetric widget.Options],
          Dimensions := ExtractDimensions widget.Options } = (dim, val, none)) :
    gaWidget.stackedBar env widget =
      match stackedBarLoop env [env.blue, env.green, env.yellow, env.red, env.magenta] val 0
          (List.replicate 8 [])
          (env.Sprintf (Trim (env.Title (ExtractMetric widget.Options)) (str "_")) ++
            str " - ") with
      | none => ⟨1, none⟩
      | some (data, title) =>
        ⟨1, some (.ok (.stackedBarChart data dim
          (if widget.Options.has optionTitle then widget.Options.get optionTitle else title)
          [env.blue, env.green, env.yellow, env.red, env.magenta] widget.Options))⟩ := by
  subst ho
  simp only [gaWidget.stackedBar, htime, hfetch, h1, h2, h3, h4, h5, Bool.false_eq_true,
    if_false]
  try rfl

/-- C11, amended: for every provider result with n <= 5 named series and no colour option
set, the shaping loop of `stackedBar` completes without an out-of-range access to the 8-slot
array or the 5-entry palette: it places the n series, values unaltered, into the first n
slots in the order visited and leaves the other slots empty. -/
theorem stackedBar_shaping (env : Env) (widget : Widget) (sd ed : Time) (dim : List GoString)
    (val : List (GoString × List Int))
    (h1 : widget.Options.has optionFirstColor = false)
    (h2 : widget.Options.has optionSecondColor = false)
    (h3 : widget.Options.has optionThirdColor = false)
    (h4 : widget.Options.has optionFourthColor = false)
    (h5 : widget.Options.has optionFifthColor = false)
    (htime : ExtractTimeRange env.tt env.now widget.Options = (sd, ed, none))
    (hfetch : env.StackedBar
        { ViewID := env.viewID, StartDate := env.Format sd, EndDate := env.Format ed,
          TimePeriod :=
            if widget.Options.has optionTimePeriod then
              TrimSpace (widget.Options.get optionTimePeriod)
            else str "day",
          Metrics := [ExtractMetric widget.Options],
          Dimensions := ExtractDimensions widget.Options } = (dim, val, none))
    (hn : val.length ≤ 5) :
    ∃ title, gaWidget.stackedBar env widget =
      ⟨1, some (.ok (.stackedBarChart (val.map Prod.snd ++ List.replicate (8 - val.length) [])
        dim title [env.blue, env.green, env.yellow, env.red, env.magenta] widget.Options))⟩ := by
  obtain ⟨title', hloop⟩ := stackedBarLoop_places env
    [env.blue, env.green, env.yellow, env.red, env.magenta] rfl val []
    (env.Sprintf (Trim (env.Title (ExtractMetric widget.Options)) (str "_")) ++ str " - ")
    (by simpa using hn)
  simp only [List.length_nil, Nat.sub_zero, List.nil_append] at hloop
  rw [stackedBar_colors env widget.Options h1 h2 h3 h4 h5 widget rfl sd ed dim val htime hfetch,
    hloop]
  exact ⟨_, rfl⟩

/-- With six or more series the shaping loop of `stackedBar` panics after the fetch. -/
theorem stackedBar_six_panics (env : Env) (widget : Widget) (sd ed : Time)
    (dim : List GoString) (val : List (GoString × List Int))
    (h1 : widget.Options.has optionFirstColor = false)
    (h2 : widget.Options.has optionSecondColor = false)
    (h3 : widget.Options.has optionThirdColor = false)
    (h4 : widget.Options.has optionFourthColor = false)
    (h5 : widget.Options.has optionFifthColor = false)
    (htime : ExtractTimeRange env.tt env.now widget.Options = (sd, ed, none))
    (hfetch : env.StackedBar
        { ViewID := env.viewID, StartDate := env.Format sd, EndDate := env.Format ed,
          TimePeriod :=
            if widget.Options.has optionTimePeriod then
              TrimSpace (widget.Options.get optionTimePeriod)
            else str "day",
          Metrics := [ExtractMetric widget.Options],
          Dimensions := ExtractDimensions widget.Options } = (dim, val, none))
    (hn : 6 ≤ val.length) : gaWidget.stackedBar env widget = ⟨1, none⟩ := by
  rw [stackedBar_colors env widget.Options h1 h2 h3 h4 h5 widget rfl sd ed dim val htime hfetch,
    stackedBarLoop_panics env [env.blue, env.green, env.yellow, env.red, env.magenta] rfl val 0
      _ _ (by omega) (by omega)]

/-- C11, instance: the two series of the sample provider fill the first two slots. -/
theorem stackedBar_shaping_witness :
    ∃ title, gaWidget.stackedBar sampleEnv ⟨gaBarDevices, []⟩ =
      ⟨1, some (.ok (.stackedBarChart
        (([(str "New Visitor", [1, 2]), (str "Returning Visitor", [3, 4])] :
            List (GoString × List Int)).map Prod.snd ++ List.replicate (8 - 2) [])
        [str "01-14", str "01-15"] title
        [sampleEnv.blue, sampleEnv.green, sampleEnv.yellow, sampleEnv.red, sampleEnv.magenta]
        []))⟩ :=
  stackedBar_shaping sampleEnv ⟨gaBarDevices, []⟩ (Date 2019 1 8 0) (Date 2019 1 15 0)
    [str "01-14", str "01-15"] [(str "New Visitor", [1, 2]), (str "Returning Visitor", [3, 4])]
    (by decide) (by decide) (by decide) (by decide) (by decide) (by decide) (by decide)
    (by decide)

/-- C11, counterexample: with six series and no colour option the loop reaches `colors[5]`
on a palette of five entries and `stackedBar` panics; nothing is placed. -/
theorem stackedBar_six_series :
    gaWidget.stackedBar sampleEnvSix ⟨gaBarDevices, []⟩ = ⟨1, none⟩ ∧
    gaWidget.CreateWidgets sampleEnvSix ⟨gaBarDevices, []⟩ = ⟨1, none⟩ := by
  decide

/-! ## Option extractors -/

theorem str_comma : str "," = [44] := by decide

theorem splitAux_ne_nil (sep : GoString) (s : GoString) :
    ∀ (k : Nat) (cur : GoString), splitAux sep s k cur ≠ [] := by
  induction s with
  | nil => intro k cur; simp [splitAux]
  | cons c s ih =>
    intro k cur
    cases k with
    | succ k => rw [splitAux]; exact ih k cur
    | zero =>
      rw [splitAux]
      split_ifs
      · simp
      · exact ih 0 _

theorem splitAux_comma_singleton (s : GoString) :
    ∀ cur : GoString, splitAux [44] s 0 cur = [[]] → s = [] ∧ cur = [] := by
  induction s with
  | nil =>
    intro cur h
    simp only [splitAux, List.cons.injEq, List.reverse_eq_nil_iff, and_true] at h
    exact ⟨rfl, h⟩
  | cons c s ih =>
    intro cur h
    rw [splitAux] at h
    split_ifs at h
    · simp only [List.cons.injEq] at h
      exact absurd h.2 (splitAux_ne_nil _ _ _ _)
    · have := (ih (c :: cur) h).2
      simp at this

/-- Splitting at commas gives the single empty piece only for the empty text. -/
theorem Split_comma_singleton (x : GoString) : Split x (str ",") = [[]] ↔ x = [] := by
  rw [str_comma]
  constructor
  · intro h; exact (splitAux_comma_singleton x [] h).1
  · rintro rfl; rfl

/-- The pieces of a split at commas, joined by commas again, give the text back. -/
theorem splitAux_comma_join (s : GoString) :
    ∀ cur : GoString, [44].intercalate (splitAux [44] s 0 cur) = cur.reverse ++ s := by
  induction s with
  | nil => intro cur; simp [splitAux, List.intercalate]
  | cons c s ih =>
    intro cur
    rw [splitAux]
    by_cases hc : c = 44
    · subst hc
      have hp : ([44] : GoString).isPrefixOf (44 :: s) = true := by simp [List.isPrefixOf]
      rw [if_pos hp]
      have ih0 := ih []
      obtain ⟨p, ps, hps⟩ := List.exists_cons_of_ne_nil (splitAux_ne_nil [44] s 0 [])
      simp only [List.length_singleton, Nat.sub_self] at hps ⊢
      rw [hps] at ih0 ⊢
      simp only [List.intercalate, List.intersperse_cons_cons, List.flatten_cons,
        List.reverse_nil, List.nil_append] at ih0 ⊢
      rw [ih0]
      simp
    · have hp : ¬ ([44] : GoString).isPrefixOf (c :: s) = true := by
        simp [List.isPrefixOf]; exact fun h => hc h.symm
      rw [if_neg hp, ih]
      simp

/-- C13, amended: `ExtractDimensions` returns the empty sequence when `dimensions` is absent
or is the empty string, and otherwise the comma-separated pieces, in order, of the value with
the white space around the whole value removed; the pieces themselves are not trimmed
(`"a, b"` gives `"a"` and `" b"`). The result is the one-element list of the empty string
exactly when the value is not empty and is white space only. -/
theorem ExtractDimensions_spec (options : Options) :
    (options.lookup optionDimensions = none → ExtractDimensions options = []) ∧
    (options.lookup optionDimensions = some [] → ExtractDimensions options = []) ∧
    (∀ v, options.lookup optionDimensions = some v → v ≠ [] →
      ExtractDimensions options = Split (TrimSpace v) (str ",") ∧
      [44].intercalate (ExtractDimensions options) = TrimSpace v) ∧
    (ExtractDimensions options = [[]] ↔
      ∃ v, options.lookup optionDimensions = some v ∧ v ≠ [] ∧ TrimSpace v = []) ∧
    ExtractDimensions [(optionDimensions, str "a, b")] = [str "a", str " b"] := by
  have hsome : ∀ v, options.lookup optionDimensions = some v → v ≠ [] →
      ExtractDimensions options = Split (TrimSpace v) (str ",") := by
    intro v hv hne
    have hlen : v.length > 0 := List.length_pos.mpr hne
    simp only [ExtractDimensions, Options.has_of_lookup _ _ _ hv, Options.get_of_lookup _ _ _ hv,
      if_true, hlen]
  have hnone : options.lookup optionDimensions = none → ExtractDimensions options = [] := by
    intro h
    simp [ExtractDimensions, Options.has, h]
  have hempty : options.lookup optionDimensions = some [] → ExtractDimensions options = [] := by
    intro h
    simp [ExtractDimensions, Options.has, Options.get, h]
  refine ⟨hnone, hempty, ?_, ?_, by decide⟩
  · intro v hv hne
    refine ⟨hsome v hv hne, ?_⟩
    rw [hsome v hv hne, str_comma, Split, splitAux_comma_join]
    simp
  · constructor
    · intro h
      cases hl : options.lookup optionDimensions with
      | none => rw [hnone hl] at h; simp at h
      | some v =>
        by_cases hne : v = []
        · subst hne; rw [hempty hl] at h; simp at h
        · refine ⟨v, rfl, hne, ?_⟩
          rw [hsome v hl hne] at h
          exact (Split_comma_singleton _).1 h
    · rintro ⟨v, hv, hne, ht⟩
      rw [hsome v hv hne, ht]
      decide

/-- C13, instance: the value ` a,b ` gives the pieces `a` and `b`. -/
theorem ExtractDimensions_spec_witness :
    List.lookup optionDimensions [(optionDimensions, str " a,b ")] = some (str " a,b ") ∧
    str " a,b " ≠ [] ∧
    ExtractDimensions [(optionDimensions, str " a,b ")] = [str "a", str "b"] := by
  refine ⟨by decide, by decide, ?_⟩
  rw [((ExtractDimensions_spec [(optionDimensions, str " a,b ")]).2.2.1 (str " a,b ")
    (by decide) (by decide)).1]
  decide

/-- C13, counterexample: the piece after the comma keeps its leading space, and a value of
one space gives the one-element list of the empty string. -/
theorem ExtractDimensions_not_trimmed :
    ExtractDimensions [(optionDimensions, str "a, b")] = [str "a", str " b"] ∧
    ExtractDimensions [(optionDimensions, str "a, b")] ≠ [str "a", str "b"] ∧
    ExtractDimensions [(optionDimensions, str " ")] = [str ""] := by
  decide

/-- A present option replaces its default, also when the other one is absent. -/
theorem ExtractTimeRange_example :
    ExtractTimeRange totimeSpec (Date 2019 1 15 0) [(optionStartDate, str "this_month")] =
      (Date 2019 1 1 0, Date 2019 1 15 0, none) ∧
    ExtractTimeRange totimeSpec (Date 2019 1 15 0) [(optionEndDate, str "3_day_ago")] =
      (Time.zero, Time.zero, some (.lib (.timeParse (str "3_day_ago")))) := by
  decide
/-! ## The dispatchers -/

theorem ParseInt_error (s : GoString) (v : Int) (e : Error) (h : ParseInt s = (v, some e)) :
    e.isResolverError = true := by
  unfold ParseInt at h
  cases s with
  | nil =>
    simp only [Prod.mk.injEq, Option.some.injEq] at h; obtain ⟨-, rfl⟩ := h; rfl
  | cons c r =>
    dsimp only at h
    generalize ParseUint _ = pu at h
    obtain ⟨un, oe⟩ := pu
    cases oe with
    | none =>
      dsimp only at h
      split_ifs at h
      all_goals first
        | (simp at h; done)
        | (simp only [Prod.mk.injEq, Option.some.injEq] at h; obtain ⟨-, rfl⟩ := h; rfl)
    | some k =>
      cases k
      all_goals dsimp only at h
      all_goals try split_ifs at h
      all_goals first
        | (simp at h; done)
        | (simp only [Prod.mk.injEq, Option.some.injEq] at h; obtain ⟨-, rfl⟩ := h; rfl)

theorem parseDay_cases (bad : Time × Option Error) (year month : Int) (rest : GoString) :
    parseDay bad year month rest = bad ∨ ∃ t, parseDay bad year month rest = (t, none) := by
  unfold parseDay
  repeat' split
  all_goals first
    | exact Or.inl rfl
    | exact Or.inr ⟨_, rfl⟩

theorem parseMonth_cases (bad : Time × Option Error) (year : Int) (rest : GoString) :
    parseMonth bad year rest = bad ∨ ∃ t, parseMonth bad year rest = (t, none) := by
  unfold parseMonth
  repeat' split
  all_goals first
    | exact Or.inl rfl
    | exact parseDay_cases _ _ _ _

theorem ParseDate_cases (s : GoString) :
    ParseDate s = (Time.zero, some (.lib (.timeParse s))) ∨ ∃ t, ParseDate s = (t, none) := by
  unfold ParseDate
  dsimp only
  repeat' split
  all_goals first
    | exact Or.inl rfl
    | exact parseMonth_cases _ _ _

theorem ParseDate_error (s : GoString) (t : Time) (e : Error) (h : ParseDate s = (t, some e)) :
    e.isResolverError = true := by
  rcases ParseDate_cases s with h1 | ⟨t1, h1⟩
  · rw [h1] at h
    simp only [Prod.mk.injEq, Option.some.injEq] at h; obtain ⟨-, rfl⟩ := h; rfl
  · rw [h1] at h; simp at h

theorem ExtractCountPeriod_error (p : GoString) (v : Int) (e : Error)
    (h : ExtractCountPeriod p = (v, some e)) : e.isResolverError = true := by
  unfold ExtractCountPeriod at h
  dsimp only at h
  generalize ParseInt _ = pu at h
  obtain ⟨un, oe⟩ := pu
  cases oe with
  | none => simp at h
  | some k =>
    simp only [Prod.mk.injEq, Option.some.injEq] at h; obtain ⟨-, rfl⟩ := h; rfl

theorem convertStartDate_error (tt : Totime) (base : Time) (s : GoString) (t : Time) (e : Error)
    (h : convertStartDate tt base s = (t, some e)) : e.isResolverError = true := by
  unfold convertStartDate at h
  split_ifs at h
  all_goals first
    | (simp at h)
    | exact ParseDate_error _ _ _ h
    | (generalize hx : ExtractCountPeriod s = x at h
       obtain ⟨n, oe⟩ := x
       cases oe with
       | none => simp at h
       | some k =>
         simp only [Prod.mk.injEq, Option.some.injEq] at h
         obtain ⟨-, rfl⟩ := h
         first
           | exact ExtractCountPeriod_error _ _ _ hx
           | rfl)

theorem convertEndDate_error (tt : Totime) (base : Time) (s : GoString) (t : Time) (e : Error)
    (h : convertEndDate tt base s = (t, some e)) : e.isResolverError = true := by
  unfold convertEndDate at h
  split_ifs at h
  all_goals first
    | (simp at h)
    | exact ParseDate_error _ _ _ h
    | (generalize hx : ExtractCountPeriod s = x at h
       obtain ⟨n, oe⟩ := x
       cases oe with
       | none => simp at h
       | some k =>
         simp only [Prod.mk.injEq, Option.some.injEq] at h
         obtain ⟨-, rfl⟩ := h
         exact ExtractCountPeriod_error _ _ _ hx)

theorem ConvertDates_error (tt : Totime) (base : Time) (s e : GoString) (t1 t2 : Time)
    (err : Error) (h : ConvertDates tt base s e = (t1, t2, some err)) :
    err.isResolverError = true := by
  unfold ConvertDates at h
  dsimp only at h
  cases hs : convertStartDate tt base (resolveAlias s) with
  | mk a oa =>
    rw [hs] at h
    cases oa with
    | some k =>
      simp only [Prod.mk.injEq, Option.some.injEq] at h
      obtain ⟨-, -, rfl⟩ := h
      exact convertStartDate_error _ _ _ _ _ hs
    | none =>
      dsimp only at h
      cases he : convertEndDate tt base (resolveAlias e) with
      | mk b ob =>
        rw [he] at h
        cases ob with
        | some k =>
          simp only [Prod.mk.injEq, Option.some.injEq] at h
          obtain ⟨-, -, rfl⟩ := h
          exact convertEndDate_error _ _ _ _ _ he
        | none => simp at h

theorem ExtractTimeRange_error (tt : Totime) (base : Time) (options : Options) (t1 t2 : Time)
    (err : Error) (h : ExtractTimeRange tt base options = (t1, t2, some err)) :
    err.isResolverError = true := by
  unfold ExtractTimeRange at h
  dsimp only at h
  generalize hs : ConvertDates tt base _ _ = x at h
  obtain ⟨a, b, oe⟩ := x
  cases oe with
  | none => simp at h
  | some k =>
    simp only [Prod.mk.injEq, Option.some.injEq] at h
    obtain ⟨-, -, rfl⟩ := h
    exact ConvertDates_error _ _ _ _ _ _ _ hs

theorem globalOption_error (options : Options) (g : Bool) (e : Error)
    (h : globalOption options = (g, some e)) : e.isResolverError = true := by
  unfold globalOption at h
  split_ifs at h
  · generalize ParseBool _ = x at h
    obtain ⟨a, oe⟩ := x
    cases oe with
    | none => simp at h
    | some k =>
      simp only [Prod.mk.injEq, Option.some.injEq] at h; obtain ⟨-, rfl⟩ := h; rfl
  · simp at h

theorem limitOption_error (options : Options) (k : GoString) (d v : Int) (e : Error)
    (h : limitOption options k d = (v, some e)) : e.isResolverError = true := by
  unfold limitOption at h
  split_ifs at h
  · generalize ParseInt _ = x at h
    obtain ⟨a, oe⟩ := x
    cases oe with
    | none => simp at h
    | some k =>
      simp only [Prod.mk.injEq, Option.some.injEq] at h; obtain ⟨-, rfl⟩ := h; rfl
  · simp at h
theorem totalMetric_error (env : Env) (widget : Widget) :
    ∀ e, (gaWidget.totalMetric env widget).result = some (.error e) →
      e.isResolverError = true ∨ env.ProviderError e := by
  unfold gaWidget.totalMetric
  dsimp only
  intro e
  split
  · rename_i h1
    intro h
    simp only [Option.some.injEq, Except.error.injEq] at h
    subst h
    exact Or.inl (ExtractTimeRange_error _ _ _ _ _ _ h1)
  · split
    · rename_i h1
      intro h
      simp only [Option.some.injEq, Except.error.injEq] at h
      subst h
      exact Or.inl (globalOption_error _ _ _ h1)
    · split
      · rename_i h1
        intro h
        simp only [Option.some.injEq, Except.error.injEq] at h
        subst h
        exact Or.inr (Or.inr (Or.inl ⟨_, by rw [h1]⟩))
      · intro h
        simp at h

theorem realTimeUser_error (env : Env) (widget : Widget) :
    ∀ e, (gaWidget.realTimeUser env widget).result = some (.error e) →
      e.isResolverError = true ∨ env.ProviderError e := by
  unfold gaWidget.realTimeUser
  dsimp only
  intro e
  split
  · rename_i h1
    intro h
    simp only [Option.some.injEq, Except.error.injEq] at h
    subst h
    exact Or.inr (Or.inl ⟨_, by rw [h1]⟩)
  · intro h
    simp at h

theorem barMetric_error (env : Env) (widget : Widget) (xHeader : Nat) :
    ∀ e, (gaWidget.barMetric env widget xHeader).result = some (.error e) →
      e.isResolverError = true ∨ env.ProviderError e := by
  unfold gaWidget.barMetric
  dsimp only
  intro e
  split
  · rename_i h1
    intro h
    simp only [Option.some.injEq, Except.error.injEq] at h
    subst h
    exact Or.inl (globalOption_error _ _ _ h1)
  · split
    · rename_i h1
      intro h
      simp only [Option.some.injEq, Except.error.injEq] at h
      subst h
      exact Or.inl (ExtractTimeRange_error _ _ _ _ _ _ h1)
    · generalize hb : env.BarMetric _ = x
      obtain ⟨a, b, oe⟩ := x
      cases oe with
      | none => intro h; simp at h
      | some k =>
        intro h
        simp only [Option.some.injEq, Except.error.injEq] at h
        subst h
        exact Or.inr (Or.inr (Or.inr (Or.inl ⟨_, by rw [hb]⟩)))

theorem table_error (env : Env) (widget : Widget) (firstHeader : GoString) :
    ∀ e, (gaWidget.table env widget firstHeader).result = some (.error e) →
      e.isResolverError = true ∨ env.ProviderError e := by
  unfold gaWidget.table
  dsimp only
  intro e
  split
  · rename_i h1
    intro h
    simp only [Option.some.injEq, Except.error.injEq] at h
    subst h
    exact Or.inl (globalOption_error _ _ _ h1)
  · split
    · intro h; simp at h
    · split
      · rename_i h1
        intro h
        simp only [Option.some.injEq, Except.error.injEq] at h
        subst h
        exact Or.inl (ExtractTimeRange_error _ _ _ _ _ _ h1)
      · split
        · rename_i h1
          intro h
          simp only [Option.some.injEq, Except.error.injEq] at h
          subst h
          exact Or.inl (limitOption_error _ _ _ _ _ h1)
        · generalize hb : env.Table _ _ = x
          obtain ⟨a, b, c, oe⟩ := x
          cases oe with
          | some k =>
            intro h
            simp only [Option.some.injEq, Except.error.injEq] at h
            subst h
            exact Or.inr (Or.inr (Or.inr (Or.inr (Or.inl ⟨_, _, by rw [hb]⟩))))
          | none =>
            dsimp only
            split
            · rename_i h1
              intro h
              simp only [Option.some.injEq, Except.error.injEq] at h
              subst h
              exact Or.inl (limitOption_error _ _ _ _ _ h1)
            · split
              · intro h; simp at h
              · intro h; simp at h

theorem stackedBar_error (env : Env) (widget : Widget) :
    ∀ e, (gaWidget.stackedBar env widget).result = some (.error e) →
      e.isResolverError = true ∨ env.ProviderError e := by
  unfold gaWidget.stackedBar
  dsimp only
  intro e
  split
  · rename_i h1
    intro h
    simp only [Option.some.injEq, Except.error.injEq] at h
    subst h
    exact Or.inl (ExtractTimeRange_error _ _ _ _ _ _ h1)
  · generalize hb : env.StackedBar _ = x
    obtain ⟨a, b, oe⟩ := x
    cases oe with
    | some k =>
      intro h
      simp only [Option.some.injEq, Except.error.injEq] at h
      subst h
      exact Or.inr (Or.inr (Or.inr (Or.inr (Or.inr (Or.inl ⟨_, by rw [hb]⟩)))))
    | none =>
      dsimp only
      generalize stackedBarLoop _ _ _ _ _ _ = y
      cases y with
      | none => intro h; simp at h
      | some p => intro h; simp at h

theorem boxUptime_error (env : Env) (widget : Widget) :
    ∀ e, (remoteHostWidget.boxUptime env widget).result = some (.error e) →
      env.ProviderError e := by
  unfold remoteHostWidget.boxUptime
  dsimp only
  intro e
  split
  · rename_i h1
    intro h
    simp only [Option.some.injEq, Except.error.injEq] at h
    subst h
    exact Or.inr (Or.inr (Or.inr (Or.inr (Or.inr (Or.inl (by rw [h1]))))))
  · intro h
    simp at h

theorem barGetMemory_error (env : Env) (widget : Widget) :
    ∀ e, (remoteHostWidget.barGetMemory env widget).result = some (.error e) →
      env.ProviderError e := by
  unfold remoteHostWidget.barGetMemory
  dsimp only
  intro e
  split
  · rename_i h1
    intro h
    simp only [Option.some.injEq, Except.error.injEq] at h
    subst h
    exact Or.inr (Or.inr (Or.inr (Or.inr (Or.inr (Or.inr ⟨_, _, by rw [h1]⟩)))))
  · intro h
    simp at h

theorem users_error (env : Env) (widget : Widget) :
    ∀ e, (gaWidget.users env widget).result = some (.error e) →
      e.isResolverError = true ∨ env.ProviderError e := by
  unfold gaWidget.users
  exact barMetric_error _ _ _

theorem barReturning_error (env : Env) (widget : Widget) :
    ∀ e, (gaWidget.barReturning env widget).result = some (.error e) →
      e.isResolverError = true ∨ env.ProviderError e := by
  unfold gaWidget.barReturning
  exact barMetric_error _ _ _

theorem barCountries_error (env : Env) (widget : Widget) :
    ∀ e, (gaWidget.barCountries env widget).result = some (.error e) →
      e.isResolverError = true ∨ env.ProviderError e := by
  unfold gaWidget.barCountries
  exact barMetric_error _ _ _

theorem barBounces_error (env : Env) (widget : Widget) :
    ∀ e, (gaWidget.barBounces env widget).result = some (.error e) →
      e.isResolverError = true ∨ env.ProviderError e := by
  unfold gaWidget.barBounces
  exact barMetric_error _ _ _

theorem trafficSource_error (env : Env) (widget : Widget) :
    ∀ e, (gaWidget.trafficSource env widget).result = some (.error e) →
      e.isResolverError = true ∨ env.ProviderError e := by
  unfold gaWidget.trafficSource
  exact table_error _ _ _

theorem stackedBarNewReturningUsers_error (env : Env) (widget : Widget) :
    ∀ e, (gaWidget.stackedBarNewReturningUsers env widget).result = some (.error e) →
      e.isResolverError = true ∨ env.ProviderError e := by
  unfold gaWidget.stackedBarNewReturningUsers
  exact stackedBar_error _ _

theorem stackedBarDevices_error (env : Env) (widget : Widget) :
    ∀ e, (gaWidget.stackedBarDevices env widget).result = some (.error e) →
      e.isResolverError = true ∨ env.ProviderError e := by
  unfold gaWidget.stackedBarDevices
  exact stackedBar_error _ _

theorem barPages_error (env : Env) (widget : Widget) :
    ∀ e, (gaWidget.barPages env widget).result = some (.error e) →
      (e.isResolverError = true ∨ env.ProviderError e) ∨ ∃ msg c r, e = .new msg ∧
        msg = c :: r ∧ c = 84 := by
  unfold gaWidget.barPages
  dsimp only
  intro e
  split
  · intro h
    simp only [Option.some.injEq, Except.error.injEq] at h
    subst h
    exact Or.inr ⟨_, _, _, rfl, rfl, rfl⟩
  · intro h
    exact Or.inl (barMetric_error _ _ _ e h)

theorem unknownWidget_not_resolver (name : GoString) :
    (unknownWidget name).isResolverError = false := rfl

theorem unknownWidget_head (name msg : GoString) (c : Nat) (r : GoString)
    (h : unknownWidget name = .new msg) (hm : msg = c :: r) : c = 99 := by
  unfold unknownWidget at h
  simp only [Error.new.injEq] at h
  rw [hm] at h
  have h2 : str "can't find the widget " ++ name = 99 :: (str "an't find the widget " ++ name) := by
    rfl
  rw [h2] at h
  exact (List.cons.inj h).1.symm

/-- The routes of `gaWidget.CreateWidgets`: a registered name calls its handler. -/
theorem ga_routes (env : Env) (widget : Widget) :
    (widget.Name = gaBoxRealtime →
      gaWidget.CreateWidgets env widget = gaWidget.realTimeUser env widget) ∧
    (widget.Name = gaBoxTotal →
      gaWidget.CreateWidgets env widget = gaWidget.totalMetric env widget) ∧
    (widget.Name = gaBarSessions →
      gaWidget.CreateWidgets env widget = gaWidget.barMetric env widget env.XHeaderTime) ∧
    (widget.Name = gaBarUsers →
      gaWidget.CreateWidgets env widget = gaWidget.users env widget) ∧
    (widget.Name = gaBar →
      gaWidget.CreateWidgets env widget = gaWidget.barMetric env widget env.XHeaderTime) ∧
    (widget.Name = gaTablePages →
      gaWidget.CreateWidgets env widget = gaWidget.table env widget (str "Page")) ∧
    (widget.Name = gaTableTrafficSources →
      gaWidget.CreateWidgets env widget = gaWidget.trafficSource env widget) ∧
    (widget.Name = gaBarNewReturning →
      gaWidget.CreateWidgets env widget = gaWidget.stackedBarNewReturningUsers env widget) ∧
    (widget.Name = gaBarDevices →
      gaWidget.CreateWidgets env widget = gaWidget.stackedBarDevices env widget) ∧
    (widget.Name = gaBarReturning →
      gaWidget.CreateWidgets env widget = gaWidget.barReturning env widget) ∧
    (widget.Name = gaBarPages →
      gaWidget.CreateWidgets env widget = gaWidget.barPages env widget) ∧
    (widget.Name = gaBarCountries →
      gaWidget.CreateWidgets env widget = gaWidget.barCountries env widget) ∧
    (widget.Name = gaBarBounces →
      gaWidget.CreateWidgets env widget = gaWidget.barBounces env widget) ∧
    (widget.Name = gaTable →
      gaWidget.CreateWidgets env widget =
        gaWidget.table env widget (widget.Options.get optionDimension)) := by
  refine ⟨?_, ?_, ?_, ?_, ?_, ?_, ?_, ?_, ?_, ?_, ?_, ?_, ?_, ?_⟩
  all_goals
    intro h
    unfold gaWidget.CreateWidgets
    rw [h]
    rfl

/-- The routes of `remoteHostWidget.CreateWidgets`. -/
theorem rh_routes (env : Env) (widget : Widget) :
    (widget.Name = rhUptime →
      remoteHostWidget.CreateWidgets env widget = remoteHostWidget.boxUptime env widget) ∧
    (widget.Name = rhMemory →
      remoteHostWidget.CreateWidgets env widget = remoteHostWidget.barGetMemory env widget) := by
  refine ⟨?_, ?_⟩
  all_goals
    intro h
    unfold remoteHostWidget.CreateWidgets
    rw [h]
    rfl

theorem ga_unknown (env : Env) (widget : Widget) (h : widget.Name ∉ gaKinds) :
    gaWidget.CreateWidgets env widget = ⟨0, some (.error (unknownWidget widget.Name))⟩ := by
  simp only [gaKinds, List.mem_cons, List.mem_singleton, not_or, List.mem_nil_iff,
    or_false] at h
  obtain ⟨h1, h2, h3, h4, h5, h6, h7, h8, h9, h10, h11, h12, h13, h14⟩ := h
  unfold gaWidget.CreateWidgets
  rw [if_neg h1, if_neg h2, if_neg h3, if_neg h4, if_neg h5, if_neg h6, if_neg h7, if_neg h8,
    if_neg h9, if_neg h10, if_neg h11, if_neg h12, if_neg h13, if_neg h14]
  rfl

theorem rh_unknown (env : Env) (widget : Widget) (h1 : widget.Name ≠ rhUptime)
    (h2 : widget.Name ≠ rhMemory) :
    remoteHostWidget.CreateWidgets env widget =
      ⟨0, some (.error (unknownWidget widget.Name))⟩ := by
  unfold remoteHostWidget.CreateWidgets
  rw [if_neg h1, if_neg h2]
  rfl

theorem ga_registered_error (env : Env) (widget : Widget) (h : widget.Name ∈ gaKinds) :
    ∀ e, (gaWidget.CreateWidgets env widget).result = some (.error e) →
      (e.isResolverError = true ∨ env.ProviderError e) ∨ ∃ msg c r, e = .new msg ∧
        msg = c :: r ∧ c = 84 := by
  have hr := ga_routes env widget
  obtain ⟨r1, r2, r3, r4, r5, r6, r7, r8, r9, r10, r11, r12, r13, r14⟩ := hr
  simp only [gaKinds, List.mem_cons, List.mem_singleton, List.mem_nil_iff, or_false] at h
  rcases h with h | h | h | h | h | h | h | h | h | h | h | h | h | h
  · rw [r1 h]; exact fun e he => Or.inl (realTimeUser_error _ _ e he)
  · rw [r2 h]; exact fun e he => Or.inl (totalMetric_error _ _ e he)
  · rw [r3 h]; exact fun e he => Or.inl (barMetric_error _ _ _ e he)
  · rw [r4 h]; exact fun e he => Or.inl (users_error _ _ e he)
  · rw [r5 h]; exact fun e he => Or.inl (barMetric_error _ _ _ e he)
  · rw [r6 h]; exact fun e he => Or.inl (table_error _ _ _ e he)
  · rw [r7 h]; exact fun e he => Or.inl (trafficSource_error _ _ e he)
  · rw [r8 h]; exact fun e he => Or.inl (stackedBarNewReturningUsers_error _ _ e he)
  · rw [r9 h]; exact fun e he => Or.inl (stackedBarDevices_error _ _ e he)
  · rw [r10 h]; exact fun e he => Or.inl (barReturning_error _ _ e he)
  · rw [r11 h]; exact barPages_error _ _
  · rw [r12 h]; exact fun e he => Or.inl (barCountries_error _ _ e he)
  · rw [r13 h]; exact fun e he => Or.inl (barBounces_error _ _ e he)
  · rw [r14 h]; exact fun e he => Or.inl (table_error _ _ _ e he)

theorem ga_registered_known (env : Env) (widget : Widget) (h : widget.Name ∈ gaKinds)
    (hp : ∀ e, env.ProviderError e → e ≠ unknownWidget widget.Name) :
    (gaWidget.CreateWidgets env widget).result ≠
      some (.error (unknownWidget widget.Name)) := by
  intro he
  rcases ga_registered_error env widget h _ he with (h1 | h1) | ⟨msg, c, r, h1, h2, h3⟩
  · rw [unknownWidget_not_resolver] at h1
    exact Bool.false_ne_true h1
  · exact hp _ h1 rfl
  · have := unknownWidget_head _ _ _ _ h1 h2
    omega

theorem rh_registered_known (env : Env) (widget : Widget)
    (h : widget.Name = rhUptime ∨ widget.Name = rhMemory)
    (hp : ∀ e, env.ProviderError e → e ≠ unknownWidget widget.Name) :
    (remoteHostWidget.CreateWidgets env widget).result ≠
      some (.error (unknownWidget widget.Name)) := by
  intro he
  rcases h with h | h
  · rw [(rh_routes env widget).1 h] at he
    exact hp _ (boxUptime_error _ _ _ he) rfl
  · rw [(rh_routes env widget).2 h] at he
    exact hp _ (barGetMemory_error _ _ _ he) rfl

theorem unknownWidget_names (libMsg : Error → GoString) (name : GoString) :
    Contains ((unknownWidget name).message libMsg) name = true := by
  unfold unknownWidget
  simp only [Error.message]
  exact Contains_append_left _ _ _ (by simpa using Contains_self_append name [])

/-- C12: for a widget name outside the 14 registered Google Analytics kinds,
`gaWidget.CreateWidgets` calls no handler, performs no provider fetch and returns the error
`can't find the widget <name>`, whose message contains the name;
`remoteHostWidget.CreateWidgets` does the same for every name other than `rh.box_uptime` and
`rh.bar_memory`. A registered name is routed to its handler, and the dispatcher then never
returns the unknown-widget error, the providers not returning that very error themselves. -/
theorem CreateWidgets_dispatch (libMsg : Error → GoString) (env : Env) (widget : Widget) :
    (widget.Name ∉ gaKinds →
      gaWidget.CreateWidgets env widget = ⟨0, some (.error (unknownWidget widget.Name))⟩) ∧
    (widget.Name ≠ rhUptime → widget.Name ≠ rhMemory →
      remoteHostWidget.CreateWidgets env widget =
        ⟨0, some (.error (unknownWidget widget.Name))⟩) ∧
    Contains ((unknownWidget widget.Name).message libMsg) widget.Name = true ∧
    ((widget.Name = gaBoxRealtime →
        gaWidget.CreateWidgets env widget = gaWidget.realTimeUser env widget) ∧
      (widget.Name = gaBoxTotal →
        gaWidget.CreateWidgets env widget = gaWidget.totalMetric env widget) ∧
      (widget.Name = gaBarSessions →
        gaWidget.CreateWidgets env widget = gaWidget.barMetric env widget env.XHeaderTime) ∧
      (widget.Name = gaBarUsers →
        gaWidget.CreateWidgets env widget = gaWidget.users env widget) ∧
      (widget.Name = gaBar →
        gaWidget.CreateWidgets env widget = gaWidget.barMetric env widget env.XHeaderTime) ∧
      (widget.Name = gaTablePages →
        gaWidget.CreateWidgets env widget = gaWidget.table env widget (str "Page")) ∧
      (widget.Name = gaTableTrafficSources →
        gaWidget.CreateWidgets env widget = gaWidget.trafficSource env widget) ∧
      (widget.Name = gaBarNewReturning →
        gaWidget.CreateWidgets env widget = gaWidget.stackedBarNewReturningUsers env widget) ∧
      (widget.Name = gaBarDevices →
        gaWidget.CreateWidgets env widget = gaWidget.stackedBarDevices env widget) ∧
      (widget.Name = gaBarReturning →
        gaWidget.CreateWidgets env widget = gaWidget.barReturning env widget) ∧
      (widget.Name = gaBarPages →
        gaWidget.CreateWidgets env widget = gaWidget.barPages env widget) ∧
      (widget.Name = gaBarCountries →
        gaWidget.CreateWidgets env widget = gaWidget.barCountries env widget) ∧
      (widget.Name = gaBarBounces →
        gaWidget.CreateWidgets env widget = gaWidget.barBounces env widget) ∧
      (widget.Name = gaTable →
        gaWidget.CreateWidgets env widget =
          gaWidget.table env widget (widget.Options.get optionDimension))) ∧
    ((widget.Name = rhUptime →
        remoteHostWidget.CreateWidgets env widget = remoteHostWidget.boxUptime env widget) ∧
      (widget.Name = rhMemory →
        remoteHostWidget.CreateWidgets env widget =
          remoteHostWidget.barGetMemory env widget)) ∧
    (widget.Name ∈ gaKinds →
      (∀ e, env.ProviderError e → e ≠ unknownWidget widget.Name) →
      (gaWidget.CreateWidgets env widget).result ≠
        some (.error (unknownWidget widget.Name))) ∧
    (widget.Name = rhUptime ∨ widget.Name = rhMemory →
      (∀ e, env.ProviderError e → e ≠ unknownWidget widget.Name) →
      (remoteHostWidget.CreateWidgets env widget).result ≠
        some (.error (unknownWidget widget.Name))) :=
  ⟨ga_unknown env widget, rh_unknown env widget, unknownWidget_names libMsg widget.Name,
    ga_routes env widget, rh_routes env widget, ga_registered_known env widget,
    rh_registered_known env widget⟩

/-- No provider of `sampleEnv` returns an error. -/
theorem sampleEnv_no_error (e : Error) : ¬ sampleEnv.ProviderError e := by
  intro h
  simp [Env.ProviderError, sampleEnv] at h

/-- The dispatchers on `ga.nonexistent`, on `ga.box_total` and on `rh.box_uptime`. -/
theorem CreateWidgets_dispatch_witness :
    (gaWidget.CreateWidgets sampleEnv ⟨str "ga.nonexistent", []⟩ =
        ⟨0, some (.error (.new (str "can't find the widget ga.nonexistent")))⟩ ∧
      remoteHostWidget.CreateWidgets sampleEnv ⟨str "ga.nonexistent", []⟩ =
        ⟨0, some (.error (.new (str "can't find the widget ga.nonexistent")))⟩) ∧
    (gaWidget.CreateWidgets sampleEnv ⟨gaBoxTotal, []⟩ =
        gaWidget.totalMetric sampleEnv ⟨gaBoxTotal, []⟩ ∧
      (gaWidget.CreateWidgets sampleEnv ⟨gaBoxTotal, []⟩).result ≠
        some (.error (unknownWidget gaBoxTotal))) ∧
    (remoteHostWidget.CreateWidgets sampleEnv ⟨rhUptime, []⟩ =
        remoteHostWidget.boxUptime sampleEnv ⟨rhUptime, []⟩ ∧
      (remoteHostWidget.CreateWidgets sampleEnv ⟨rhUptime, []⟩).result ≠
        some (.error (unknownWidget rhUptime))) :=
  ⟨⟨(CreateWidgets_dispatch (fun _ => []) sampleEnv ⟨str "ga.nonexistent", []⟩).1 (by decide),
      (CreateWidgets_dispatch (fun _ => []) sampleEnv ⟨str "ga.nonexistent", []⟩).2.1
        (by decide) (by decide)⟩,
    ⟨(CreateWidgets_dispatch (fun _ => []) sampleEnv ⟨gaBoxTotal, []⟩).2.2.2.1.2.1 rfl,
      (CreateWidgets_dispatch (fun _ => []) sampleEnv ⟨gaBoxTotal, []⟩).2.2.2.2.2.1
        (by decide) (fun e h => absurd h (sampleEnv_no_error e))⟩,
    ⟨(CreateWidgets_dispatch (fun _ => []) sampleEnv ⟨rhUptime, []⟩).2.2.2.2.1.1 rfl,
      (CreateWidgets_dispatch (fun _ => []) sampleEnv ⟨rhUptime, []⟩).2.2.2.2.2.2
        (Or.inl rfl) (fun e h => absurd h (sampleEnv_no_error e))⟩⟩

/-- The dispatcher of the Google Analytics widgets on the name `ga.nonexistent`: no fetch, and
an error whose text ends with the name. -/
theorem CreateWidgets_example :
    gaWidget.CreateWidgets sampleEnv ⟨str "ga.nonexistent", [(str "title", str "x")]⟩ =
      ⟨0, some (.error (.new (str "can't find the widget ga.nonexistent")))⟩ := by
  decide
end Devdash
